import Mathlib

/-!
Verification of the SparkFun Extensible Message Parser core against its
natural-language specification.

The development shallowly embeds the C sources (SparkFun_Extensible_Message_Parser.cpp
and the Parse_*.cpp parser modules).  Machine integers are modelled as `Nat`
with explicit reductions modulo 2^8 / 2^16 / 2^24 / 2^32 where the C types
overflow; byte memory is modelled as a total function `Nat → Nat` updated by
`store`; every callback invocation is recorded as an `Event`.

The CRC lookup tables (semp_crc24q.h, semp_crc32.h, semp_crc_sbf.h,
semp_crc_spartn.h) are not part of the sources of this repository; the
corresponding update functions are modelled from the specification and are
marked as such in their doc comments.
-/

set_option linter.unusedVariables false
set_option maxRecDepth 100000

namespace Semp

/-- Write value `v` at index `i` of a byte memory. -/
def store (m : Nat → Nat) (i v : Nat) : Nat → Nat :=
  fun j => if j = i then v else m j

/-- The first `n` bytes of a memory, as a list (the buffer prefix handed to
callbacks together with `length`). -/
def extract (m : Nat → Nat) (n : Nat) : List Nat :=
  (List.range n).map m

/-- `cnt` bytes of a memory starting at index `start`. -/
def extractFrom (m : Nat → Nat) (start cnt : Nat) : List Nat :=
  (List.range cnt).map (fun i => m (start + i))

/-- Reduction modulo 2^8 (uint8_t arithmetic). -/
def u8 (x : Nat) : Nat := x % 256

/-- Reduction modulo 2^16 (uint16_t arithmetic). -/
def u16 (x : Nat) : Nat := x % 65536

/-- uint16_t subtraction with wrap-around. -/
def u16sub (a b : Nat) : Nat := (a + 65536 - (b % 65536)) % 65536

/-- uint8_t subtraction with wrap-around. -/
def u8sub (a b : Nat) : Nat := (a + 256 - (b % 256)) % 256

/-- Convert an ASCII character (0-9, A-F, or a-f) into a 4-bit binary value,
returning -1 for other characters (sempAsciiToNibble in the core). -/
def sempAsciiToNibble (data : Nat) : Int :=
  -- C: data |= 0x20 converts to lower case
  let d := data ||| 0x20
  if 97 ≤ d ∧ d ≤ 102 then (d : Int) - 97 + 10
  else if 48 ≤ d ∧ d ≤ 57 then (d : Int) - 48
  else -1

/-- Nat-valued nibble used where the state machine has already validated the
character as a hexadecimal digit (invalid characters map to 0 here, a case the
callers cannot reach). -/
def hexNibble (data : Nat) : Nat := (sempAsciiToNibble data).toNat

/-- One shift step of the CRC-24Q register (polynomial 0x1864CFB). -/
def crc24qStep (x : Nat) : Nat :=
  if Nat.testBit x 23 then ((x <<< 1) ^^^ 0x1864CFB) &&& 0xFFFFFF
  else (x <<< 1) &&& 0xFFFFFF

/-- Modelled from the spec: entry of semp_crc24qTable, whose source
(semp_crc24q.h) is not part of this repository; CRC-24Q per spec section 4.3. -/
def semp_crc24qTable (i : Nat) : Nat :=
  crc24qStep^[8] ((i % 256) <<< 16)

/-- Compute the CRC-24Q one byte at a time (sempRtcmComputeCrc24q in
Parse_RTCM.cpp, as a pure function of the running value and the byte). -/
def sempRtcmComputeCrc24q (crc data : Nat) : Nat :=
  ((crc <<< 8) ^^^ semp_crc24qTable ((data ^^^ (crc >>> 16)) &&& 0xFF)) &&& 0xFFFFFF

/-- One shift step of the reflected CRC-32 register (polynomial 0xEDB88320). -/
def crc32Step (x : Nat) : Nat :=
  if Nat.testBit x 0 then (x >>> 1) ^^^ 0xEDB88320 else x >>> 1

/-- Modelled from the spec: entry of semp_crc32Table, whose source
(semp_crc32.h) is not part of this repository; CRC-32 with reversed polynomial
0xEDB88320 per spec section 4.7. -/
def semp_crc32Table (i : Nat) : Nat :=
  crc32Step^[8] (i % 256)

/-- Compute the CRC-32 one byte at a time (sempUnicoreBinaryComputeCrc in
Parse_Unicore_Binary.cpp, as a pure function). -/
def sempUnicoreBinaryComputeCrc (crc data : Nat) : Nat :=
  semp_crc32Table ((crc ^^^ data) &&& 0xFF) ^^^ (crc >>> 8)

/-- One shift step of the CCITT-16 register (polynomial 0x1021). -/
def ccittStep (x : Nat) : Nat :=
  if Nat.testBit x 15 then ((x <<< 1) ^^^ 0x1021) &&& 0xFFFF
  else (x <<< 1) &&& 0xFFFF

/-- Modelled from the spec: semp_ccitt_crc_update comes from semp_crc_sbf.h,
which is not part of this repository; CCITT-16 per spec section 4.5. -/
def semp_ccitt_crc_update (crc data : Nat) : Nat :=
  ccittStep^[8] ((crc ^^^ (data <<< 8)) &&& 0xFFFF)

/-- One shift step of a 4-bit CRC register (polynomial x^4+x^3+1). -/
def spartnCrc4Step (x : Nat) : Nat :=
  if Nat.testBit x 3 then ((x <<< 1) ^^^ 0x9) &&& 0xF else (x <<< 1) &&& 0xF

/-- Modelled from the spec: SPARTN CRC-4 over a byte sequence; the table
semp_u8Crc4Table lives in semp_crc_spartn.h which is not part of this
repository (spec section 4.6). -/
def semp_uSpartnCrc4 (l : List Nat) : Nat :=
  l.foldl (fun crc b => spartnCrc4Step^[4] ((spartnCrc4Step^[4] (crc ^^^ (b >>> 4))) ^^^ (b &&& 0xF))) 0

/-- One shift step of an 8-bit CRC register (polynomial 0x07). -/
def spartnCrc8Step (x : Nat) : Nat :=
  if Nat.testBit x 7 then ((x <<< 1) ^^^ 0x07) &&& 0xFF else (x <<< 1) &&& 0xFF

/-- Modelled from the spec: SPARTN CRC-8 over a byte sequence (table absent
from this repository, spec section 4.6). -/
def semp_uSpartnCrc8 (l : List Nat) : Nat :=
  l.foldl (fun crc b => spartnCrc8Step^[8] (crc ^^^ b)) 0

/-- Modelled from the spec: SPARTN CRC-16 over a byte sequence (table absent
from this repository, spec section 4.6). -/
def semp_uSpartnCrc16 (l : List Nat) : Nat :=
  l.foldl (fun crc b => ccittStep^[8] (crc ^^^ (b <<< 8))) 0

/-- One shift step of a 24-bit CRC register (polynomial 0x864CFB). -/
def spartnCrc24Step (x : Nat) : Nat :=
  if Nat.testBit x 23 then ((x <<< 1) ^^^ 0x864CFB) &&& 0xFFFFFF
  else (x <<< 1) &&& 0xFFFFFF

/-- Modelled from the spec: SPARTN CRC-24 over a byte sequence (table absent
from this repository, spec section 4.6). -/
def semp_uSpartnCrc24 (l : List Nat) : Nat :=
  l.foldl (fun crc b => spartnCrc24Step^[8] (crc ^^^ (b <<< 16))) 0

/-- One shift step of a 32-bit CRC register (polynomial 0x04C11DB7). -/
def spartnCrc32Step (x : Nat) : Nat :=
  if Nat.testBit x 31 then ((x <<< 1) ^^^ 0x04C11DB7) &&& 0xFFFFFFFF
  else (x <<< 1) &&& 0xFFFFFFFF

/-- Modelled from the spec: SPARTN CRC-32 over a byte sequence (table absent
from this repository, spec section 4.6). -/
def semp_uSpartnCrc32 (l : List Nat) : Nat :=
  l.foldl (fun crc b => spartnCrc32Step^[8] (crc ^^^ (b <<< 24))) 0

/-- Does `needle` occur at the head of `hay`? (helper for the strstr model) -/
def leadMatch : List Nat → List Nat → Bool
  | [], _ => true
  | _ :: _, [] => false
  | a :: as, b :: bs => a == b && leadMatch as bs

/-- Does `needle` occur anywhere inside `hay`? (strstr over byte lists) -/
def subMatch (needle : List Nat) : List Nat → Bool
  | [] => leadMatch needle []
  | b :: bs => leadMatch needle (b :: bs) || subMatch needle bs

/-- The C string stored in a byte memory starting at `i`, reading at most `n`
bytes and stopping at the first NUL. -/
def cString (m : Nat → Nat) : Nat → Nat → List Nat
  | _, 0 => []
  | i, n + 1 => if m i = 0 then [] else m i :: cString m (i + 1) n

/-- The registered parsers of this library (the parserTable entries). -/
inductive ParserId where
  | nmea
  | rtcm
  | ublox
  | sbf
  | spartn
  | unicoreBin
  | unicoreHash
  deriving DecidableEq, Repr

/-- Tagged parser states, one per state routine of the sources
(spec design note: "a target-language rewrite should model active state as a
tagged enumeration"). -/
inductive PState where
  | firstByte
  | nmeaFindFirstComma
  | nmeaFindAsterisk
  | nmeaChecksumByte1
  | nmeaChecksumByte2
  | nmeaLineTermination
  | nmeaCarriageReturn
  | nmeaLineFeed
  | rtcmReadLength1
  | rtcmReadLength2
  | rtcmReadMessage1
  | rtcmReadMessage2
  | rtcmReadData
  | rtcmReadCrc
  | ubloxSync2
  | ubloxClass
  | ubloxId
  | ubloxLength1
  | ubloxLength2
  | ubloxPayload
  | ubloxCkA
  | ubloxCkB
  | sbfPreamble2
  | sbfCRC1
  | sbfCRC2
  | sbfID1
  | sbfID2
  | sbfLengthLSB
  | sbfLengthMSB
  | sbfReadBytes
  | spartnReadTF002TF006
  | spartnReadTF007
  | spartnReadTF009
  | spartnReadTF016
  | spartnReadTF017
  | spartnReadTF018
  | uniBinSync2
  | uniBinSync3
  | uniBinReadHeader
  | uniBinReadData
  | uniBinReadCrc
  | uniHashFindFirstComma
  | uniHashFindAsterisk
  | uniHashChecksumByte
  | uniHashLineTermination
  | uniHashCarriageReturn
  | uniHashLineFeed
  deriving DecidableEq, Repr

/-- Tag for the computeCrc function pointer of the parse state. -/
inductive CrcFn where
  | rtcmCrc24q
  | unicoreCrc32
  deriving DecidableEq, Repr

/-- Apply the CRC function designated by the computeCrc tag. -/
def crcApply : CrcFn → Nat → Nat → Nat
  | .rtcmCrc24q, crc, data => sempRtcmComputeCrc24q crc data
  | .unicoreCrc32, crc, data => sempUnicoreBinaryComputeCrc crc data

/-- The union of the per-parser scratch records, as a product (spec design
note: the overlay is a footprint optimisation; only the active parser's fields
are used between frames). -/
structure Scratch where
  -- NMEA (SEMP_NMEA_VALUES)
  sentenceName : Nat → Nat
  sentenceNameLength : Nat
  -- RTCM (SEMP_RTCM_VALUES)
  rtcmCrc : Nat
  rtcmBytesRemaining : Nat
  rtcmMessage : Nat
  -- u-blox (SEMP_UBLOX_VALUES)
  ubxBytesRemaining : Nat
  messageClass : Nat
  messageId : Nat
  payloadLength : Nat
  ck_a : Nat
  ck_b : Nat
  -- SBF (SEMP_SBF_VALUES)
  expectedCRC : Nat
  computedCRC : Nat
  sbfID : Nat
  sbfIDrev : Nat
  sbfLength : Nat
  sbfBytesRemaining : Nat
  -- SPARTN (SEMP_SPARTN_VALUES)
  frameCount : Nat
  crcBytes : Nat
  TF007toTF016 : Nat
  messageType : Nat
  spartnPayloadLength : Nat
  EAF : Nat
  crcType : Nat
  frameCRC : Nat
  messageSubtype : Nat
  timeTagType : Nat
  authenticationIndicator : Nat
  embeddedApplicationLengthBytes : Nat
  -- Unicore binary (SEMP_UNICORE_BINARY_VALUES)
  uniBinCrc : Nat
  uniBinBytesRemaining : Nat
  -- Unicore hash (SEMP_UNICORE_HASH_VALUES)
  uhBytesRemaining : Nat
  checksumBytes : Nat
  uhSentenceName : Nat → Nat
  uhSentenceNameLength : Nat

/-- SEMP_PARSE_STATE: the mutable parse state (diagnostic sinks are dropped,
callback pointers live in `Config`). -/
structure ParseState where
  buf : Nat → Nat
  bufferLength : Nat
  length : Nat
  crc : Nat
  computeCrc : Option CrcFn
  state : PState
  ptype : Nat
  scratch : Scratch
  nmeaAbortOnNonPrintable : Bool
  unicoreHashAbortOnNonPrintable : Bool

/-- The immutable configuration of a parse run: the registered parser table,
the optional bad-CRC callback (per the header: it returns true when the CRC
calculation is still considered failed, false when its alternate calculation
succeeded), whether the core invalid-data callback is registered, and whether
the SBF parser-specific invalid-data callback is registered. -/
structure Config where
  parsers : List ParserId
  badCrc : Option (ParseState → Bool)
  invalidData : Bool
  sbfInvalidData : Bool

/-- Observable callback invocations, in order. -/
inductive Event where
  /-- eomCallback(parse, type) with the buffer prefix of the current length. -/
  | eom (frame : List Nat) (ptype : Nat)
  /-- invalidData(buffer, length): the core invalid-data callback. -/
  | invalid (bytes : List Nat)
  /-- The SBF scratch-pad invalidDataCallback(parse). -/
  | sbfInvalid
  /-- The badCrc callback was consulted. -/
  | badCrcQuery
  deriving DecidableEq, Repr

/-- Number of end-of-message deliveries in an event trace. -/
def eomCount (evs : List Event) : Nat :=
  (evs.filter fun e => match e with | .eom _ _ => true | _ => false).length

/-- Number of bad-CRC callback consultations in an event trace. -/
def queryCount (evs : List Event) : Nat :=
  (evs.filter fun e => match e with | .badCrcQuery => true | _ => false).length

/-- The C expression `parse->badCrc && (!parse->badCrc(parse))`: true when the
callback is registered and declares the frame acceptable after all. -/
def rescueBool (cfg : Config) (s : ParseState) : Bool :=
  match cfg.badCrc with
  | some f => !(f s)
  | none => false

/-- Evaluate the bad-CRC rescue clause, recording the consultation. -/
def badCrcConsult (cfg : Config) (s : ParseState) : Bool × List Event :=
  match cfg.badCrc with
  | some f => (!(f s), [Event.badCrcQuery])
  | none => (false, [])

/-- sempInvalidDataCallback: report the buffer to the invalid-data callback
when registered and resume the preamble search. -/
def sempInvalidDataCallback (cfg : Config) (s : ParseState) :
    ParseState × List Event :=
  ({ s with state := .firstByte },
   if cfg.invalidData then [Event.invalid (extract s.buf s.length)] else [])

/-- sempNmeaPreamble (Parse_NMEA.cpp): latch on the dollar sign. -/
def sempNmeaPreamble (s : ParseState) (data : Nat) :
    ParseState × List Event × Bool :=
  if data = 36 then
    ({ s with scratch := { s.scratch with sentenceNameLength := 0 },
              state := .nmeaFindFirstComma }, [], true)
  else (s, [], false)

/-- sempRtcmPreamble (Parse_RTCM.cpp): latch on 0xD3 and start the CRC-24Q. -/
def sempRtcmPreamble (s : ParseState) (data : Nat) :
    ParseState × List Event × Bool :=
  if data = 0xD3 then
    ({ s with computeCrc := some .rtcmCrc24q,
              crc := sempRtcmComputeCrc24q s.crc data,
              state := .rtcmReadLength1 }, [], true)
  else (s, [], false)

/-- sempUbloxPreamble (Parse_UBLOX.cpp): latch on the first sync byte 0xB5. -/
def sempUbloxPreamble (s : ParseState) (data : Nat) :
    ParseState × List Event × Bool :=
  if data = 0xB5 then ({ s with state := .ubloxSync2 }, [], true)
  else (s, [], false)

/-- sempSbfPreamble (Parse_SBF.cpp): latch on the dollar sign; a rejected byte
is reported to the SBF parser-specific invalid-data callback. -/
def sempSbfPreamble (cfg : Config) (s : ParseState) (data : Nat) :
    ParseState × List Event × Bool :=
  if data = 0x24 then ({ s with state := .sbfPreamble2 }, [], true)
  else (s, if cfg.sbfInvalidData then [Event.sbfInvalid] else [], false)

/-- sempSpartnPreamble (Parse_SPARTN.cpp): latch on 0x73. -/
def sempSpartnPreamble (s : ParseState) (data : Nat) :
    ParseState × List Event × Bool :=
  if data = 0x73 then
    ({ s with scratch := { s.scratch with frameCount := 0 },
              state := .spartnReadTF002TF006 }, [], true)
  else (s, [], false)

/-- sempUnicoreBinaryPreamble (Parse_Unicore_Binary.cpp): latch on 0xAA and
start the CRC-32. -/
def sempUnicoreBinaryPreamble (s : ParseState) (data : Nat) :
    ParseState × List Event × Bool :=
  if data = 0xAA then
    ({ s with computeCrc := some .unicoreCrc32,
              crc := sempUnicoreBinaryComputeCrc 0 data,
              state := .uniBinSync2 }, [], true)
  else (s, [], false)

/-- sempUnicoreHashPreamble (Parse_Unicore_Hash.cpp): latch on the hash sign. -/
def sempUnicoreHashPreamble (s : ParseState) (data : Nat) :
    ParseState × List Event × Bool :=
  if data = 35 then
    ({ s with scratch := { s.scratch with uhSentenceNameLength := 0 },
              state := .uniHashFindFirstComma }, [], true)
  else (s, [], false)

/-- Dispatch to the preamble routine of a parser description. -/
def preambleFn (p : ParserId) (cfg : Config) (s : ParseState) (data : Nat) :
    ParseState × List Event × Bool :=
  match p with
  | .nmea => sempNmeaPreamble s data
  | .rtcm => sempRtcmPreamble s data
  | .ublox => sempUbloxPreamble s data
  | .sbf => sempSbfPreamble cfg s data
  | .spartn => sempSpartnPreamble s data
  | .unicoreBin => sempUnicoreBinaryPreamble s data
  | .unicoreHash => sempUnicoreHashPreamble s data

/-- The dispatch loop of sempFirstByte over the remaining parser descriptions,
with `i` the current value of parse->type.  This follows the loop as the
header documents it (the first parser whose preamble accepts the byte is
latched): the source's uninitialized-index slip is modelled separately by
`sempFirstByteAsWritten`. -/
def sempFirstByteLoop (cfg : Config) (data : Nat) :
    List ParserId → Nat → ParseState → ParseState × List Event × Bool
  | [], i, s =>
      ({ s with ptype := i, state := .firstByte },
       if cfg.invalidData then [Event.invalid (extract s.buf s.length)] else [],
       false)
  | p :: rest, i, s =>
      let s := { s with ptype := i }
      let r := preambleFn p cfg s data
      if r.2.2 then r
      else
        let r2 := sempFirstByteLoop cfg data rest (i + 1) r.1
        (r2.1, r.2.1 ++ r2.2.1, r2.2.2)

/-- sempFirstByte: clear the CRC and the length, append the byte, and run the
registered preamble predicates in registration order, latching the first
acceptor (per the documented dispatch; see `sempFirstByteAsWritten` for the
source's uninitialized `index` read). -/
def sempFirstByte (cfg : Config) (s : ParseState) (data : Nat) :
    ParseState × List Event × Bool :=
  let s := { s with crc := 0, computeCrc := none, length := 0 }
  let s := { s with buf := store s.buf 0 data, length := 1 }
  sempFirstByteLoop cfg data cfg.parsers 0 s

/-- The dispatch loop of sempFirstByte exactly as written in the source: the
local variable `index` is declared but never assigned, and every iteration
reads `parse->parsers[index]` while `parse->type` advances.  `idx` models the
indeterminate value of that uninitialized read; an out-of-range read is
modelled as a rejecting description. -/
def sempFirstByteAsWrittenLoop (cfg : Config) (idx data : Nat) :
    Nat → Nat → ParseState → ParseState × List Event × Bool
  | 0, i, s =>
      ({ s with ptype := i, state := .firstByte },
       if cfg.invalidData then [Event.invalid (extract s.buf s.length)] else [],
       false)
  | n + 1, i, s =>
      let s := { s with ptype := i }
      match cfg.parsers.get? idx with
      | none => sempFirstByteAsWrittenLoop cfg idx data n (i + 1) s
      | some p =>
          let r := preambleFn p cfg s data
          if r.2.2 then r
          else
            let r2 := sempFirstByteAsWrittenLoop cfg idx data n (i + 1) r.1
            (r2.1, r.2.1 ++ r2.2.1, r2.2.2)

/-- sempFirstByte as written in the source, with the uninitialized `index`
value as the explicit parameter `idx`. -/
def sempFirstByteAsWritten (cfg : Config) (idx : Nat) (s : ParseState)
    (data : Nat) : ParseState × List Event × Bool :=
  let s := { s with crc := 0, computeCrc := none, length := 0 }
  let s := { s with buf := store s.buf 0 data, length := 1 }
  sempFirstByteAsWrittenLoop cfg idx data cfg.parsers.length 0 s

/-- The received NMEA checksum, decoded from the two characters preceding
index `length`.  In the C code `int checksum = nibble(hi) << 4 | nibble(lo)`
where an invalid character contributes -1; the resulting negative int can
never equal the 8-bit running XOR after the int/uint32 conversion of the
comparison, so the invalid cases are collapsed to -1 here. -/
def nmeaRxChecksum (s : ParseState) (length : Nat) : Int :=
  let hi := sempAsciiToNibble (s.buf (length - 2))
  let lo := sempAsciiToNibble (s.buf (length - 1))
  if 0 ≤ hi ∧ 0 ≤ lo then 16 * hi + lo else -1

/-- sempNmeaValidateChecksum (Parse_NMEA.cpp): compare the received checksum
pair with the running XOR (consulting the bad-CRC callback on mismatch); on
acceptance append CR LF, a NUL not counted in the length, and deliver the
sentence; otherwise drop the trailing byte and report invalid data. -/
def sempNmeaValidateChecksum (cfg : Config) (s : ParseState)
    (bytesToIgnore : Nat) : ParseState × List Event × Bool :=
  let length := s.length - bytesToIgnore
  let matched : Bool := nmeaRxChecksum s length == (s.crc : Int)
  let rq := if matched then (false, ([] : List Event)) else badCrcConsult cfg s
  let rescued := rq.1
  let qev := rq.2
  if (matched || rescued) && decide (length + 2 ≤ s.bufferLength) then
    let buf := store s.buf length 13
    let buf := store buf (length + 1) 10
    let buf := store buf (length + 2) 0
    let s := { s with buf := buf, length := length + 2 }
    (s, qev ++ [Event.eom (extract s.buf s.length) s.ptype], true)
  else
    let s := { s with length := s.length - 1 }
    let ri := sempInvalidDataCallback cfg s
    (ri.1, qev ++ ri.2, false)

/-- sempNmeaLineFeed: consume an optional line feed after the carriage
return, validating the sentence. -/
def sempNmeaLineFeed (cfg : Config) (s : ParseState) (data : Nat) :
    ParseState × List Event × Bool :=
  let rv := sempNmeaValidateChecksum cfg s 2
  if rv.2.2 && data == 10 then ({ rv.1 with state := .firstByte }, rv.2.1, true)
  else
    let r2 := sempFirstByte cfg rv.1 data
    (r2.1, rv.2.1 ++ r2.2.1, r2.2.2)

/-- sempNmeaCarriageReturn: consume an optional carriage return after the
line feed, validating the sentence. -/
def sempNmeaCarriageReturn (cfg : Config) (s : ParseState) (data : Nat) :
    ParseState × List Event × Bool :=
  let rv := sempNmeaValidateChecksum cfg s 2
  if rv.2.2 && data == 13 then ({ rv.1 with state := .firstByte }, rv.2.1, true)
  else
    let r2 := sempFirstByte cfg rv.1 data
    (r2.1, rv.2.1 ++ r2.2.1, r2.2.2)

/-- sempNmeaLineTermination: after the checksum pair accept one optional CR or
LF (in either order via the two follow-up states); any other byte validates
the sentence and is rescanned by the dispatcher. -/
def sempNmeaLineTermination (cfg : Config) (s : ParseState) (data : Nat) :
    ParseState × List Event × Bool :=
  if data = 13 then ({ s with state := .nmeaLineFeed }, [], true)
  else if data = 10 then ({ s with state := .nmeaCarriageReturn }, [], true)
  else
    let rv := sempNmeaValidateChecksum cfg s 1
    let r2 := sempFirstByte cfg rv.1 data
    (r2.1, rv.2.1 ++ r2.2.1, r2.2.2)

/-- sempNmeaChecksumByte2: the second checksum character must be a hex digit;
otherwise drop it, report invalid data and rescan it. -/
def sempNmeaChecksumByte2 (cfg : Config) (s : ParseState) (data : Nat) :
    ParseState × List Event × Bool :=
  if 0 ≤ sempAsciiToNibble (s.buf (s.length - 1)) then
    ({ s with state := .nmeaLineTermination }, [], true)
  else
    let s := { s with length := s.length - 1 }
    let ri := sempInvalidDataCallback cfg s
    let r2 := sempFirstByte cfg ri.1 data
    (r2.1, ri.2 ++ r2.2.1, r2.2.2)

/-- sempNmeaChecksumByte1: the first checksum character must be a hex digit;
otherwise drop it, report invalid data and rescan it. -/
def sempNmeaChecksumByte1 (cfg : Config) (s : ParseState) (data : Nat) :
    ParseState × List Event × Bool :=
  if 0 ≤ sempAsciiToNibble (s.buf (s.length - 1)) then
    ({ s with state := .nmeaChecksumByte2 }, [], true)
  else
    let s := { s with length := s.length - 1 }
    let ri := sempInvalidDataCallback cfg s
    let r2 := sempFirstByte cfg ri.1 data
    (r2.1, ri.2 ++ r2.2.1, r2.2.2)

/-- sempNmeaFindAsterisk: accumulate body bytes into the XOR checksum until
the asterisk, aborting on non-printable characters when enabled and keeping
room for the asterisk, checksum, CR, LF and NUL trailer. -/
def sempNmeaFindAsterisk (cfg : Config) (s : ParseState) (data : Nat) :
    ParseState × List Event × Bool :=
  if data = 42 then ({ s with state := .nmeaChecksumByte1 }, [], true)
  else
    let s := { s with crc := s.crc ^^^ data }
    if s.nmeaAbortOnNonPrintable && (decide (data < 32) || decide (126 < data)) then
      let s := { s with length := s.length - 1 }
      let ri := sempInvalidDataCallback cfg s
      let r2 := sempFirstByte cfg ri.1 data
      (r2.1, ri.2 ++ r2.2.1, r2.2.2)
    -- NMEA_BUFFER_OVERHEAD = 1 + 2 + 2 + 1
    else if decide (s.bufferLength < s.length + 6) then
      let s := { s with length := s.length - 1 }
      let ri := sempInvalidDataCallback cfg s
      let r2 := sempFirstByte cfg ri.1 data
      (r2.1, ri.2 ++ r2.2.1, r2.2.2)
    else (s, [], true)

/-- sempNmeaFindFirstComma: collect the sentence name (alphanumeric, at most
15 characters) until the first comma; anything else drops the byte, reports
invalid data and rescans it. -/
def sempNmeaFindFirstComma (cfg : Config) (s : ParseState) (data : Nat) :
    ParseState × List Event × Bool :=
  let s := { s with crc := s.crc ^^^ data }
  if data ≠ 44 ∨ s.scratch.sentenceNameLength = 0 then
    -- C: uint8_t upper = data & ~0x20
    let upper := data &&& 0xDF
    if (upper < 65 ∨ 90 < upper) ∧ (data < 48 ∨ 57 < data) then
      let s := { s with length := s.length - 1 }
      let ri := sempInvalidDataCallback cfg s
      let r2 := sempFirstByte cfg ri.1 data
      (r2.1, ri.2 ++ r2.2.1, r2.2.2)
    else if s.scratch.sentenceNameLength = 15 then
      let s := { s with length := s.length - 1 }
      let ri := sempInvalidDataCallback cfg s
      let r2 := sempFirstByte cfg ri.1 data
      (r2.1, ri.2 ++ r2.2.1, r2.2.2)
    else
      let sc := s.scratch
      let sc := { sc with
        sentenceName := store sc.sentenceName sc.sentenceNameLength data,
        sentenceNameLength := sc.sentenceNameLength + 1 }
      ({ s with scratch := sc }, [], true)
  else
    let sc := s.scratch
    let sc := { sc with
      sentenceName := store sc.sentenceName sc.sentenceNameLength 0,
      sentenceNameLength := sc.sentenceNameLength + 1 }
    ({ s with scratch := sc, state := .nmeaFindAsterisk }, [], true)

/-- sempRtcmReadCrc (Parse_RTCM.cpp): consume the three CRC bytes; the frame
is delivered when the running CRC-24Q (which already includes the CRC bytes)
is zero or the bad-CRC callback rescues it, otherwise it is dropped; either
way the preamble search resumes with the next byte. -/
def sempRtcmReadCrc (cfg : Config) (s : ParseState) (data : Nat) :
    ParseState × List Event × Bool :=
  let sc := { s.scratch with
    rtcmBytesRemaining := u16sub s.scratch.rtcmBytesRemaining 1 }
  let s := { s with scratch := sc }
  if 0 < sc.rtcmBytesRemaining then (s, [], true)
  else
    let good : Bool := s.crc == 0
    let rq := if good then (false, ([] : List Event)) else badCrcConsult cfg s
    let rescued := rq.1
    let qev := rq.2
    let ev := if good || rescued then [Event.eom (extract s.buf s.length) s.ptype]
              else []
    ({ s with state := .firstByte }, qev ++ ev, false)

/-- sempRtcmReadData: count down the payload bytes, then capture the CRC and
read the three CRC bytes. -/
def sempRtcmReadData (cfg : Config) (s : ParseState) (data : Nat) :
    ParseState × List Event × Bool :=
  let sc := { s.scratch with
    rtcmBytesRemaining := u16sub s.scratch.rtcmBytesRemaining 1 }
  if sc.rtcmBytesRemaining = 0 then
    let sc := { sc with rtcmCrc := s.crc, rtcmBytesRemaining := 3 }
    ({ s with scratch := sc, state := .rtcmReadCrc }, [], true)
  else ({ s with scratch := sc }, [], true)

/-- sempRtcmReadMessage2: the lower 4 bits of the message number. -/
def sempRtcmReadMessage2 (cfg : Config) (s : ParseState) (data : Nat) :
    ParseState × List Event × Bool :=
  let sc := { s.scratch with
    rtcmMessage := s.scratch.rtcmMessage ||| (data >>> 4),
    rtcmBytesRemaining := u16sub s.scratch.rtcmBytesRemaining 1 }
  ({ s with scratch := sc, state := .rtcmReadData }, [], true)

/-- sempRtcmReadMessage1: the upper 8 bits of the message number. -/
def sempRtcmReadMessage1 (cfg : Config) (s : ParseState) (data : Nat) :
    ParseState × List Event × Bool :=
  let sc := { s.scratch with
    rtcmMessage := u16 (data <<< 4),
    rtcmBytesRemaining := u16sub s.scratch.rtcmBytesRemaining 1 }
  ({ s with scratch := sc, state := .rtcmReadMessage2 }, [], true)

/-- sempRtcmReadLength2 (Parse_RTCM.cpp): the lower 8 bits of the length; a
zero length is a 10403 "filler" message that clears the message number and
jumps directly to the CRC. -/
def sempRtcmReadLength2 (cfg : Config) (s : ParseState) (data : Nat) :
    ParseState × List Event × Bool :=
  let sc := { s.scratch with
    rtcmBytesRemaining := s.scratch.rtcmBytesRemaining ||| data }
  if sc.rtcmBytesRemaining = 0 then
    let sc := { sc with rtcmMessage := 0, rtcmCrc := s.crc,
                        rtcmBytesRemaining := 3 }
    ({ s with scratch := sc, state := .rtcmReadCrc }, [], true)
  else
    ({ s with scratch := sc, state := .rtcmReadMessage1 }, [], true)

/-- sempRtcmReadLength1: the six most-significant bits of the first length
byte must be zero, otherwise the byte is rescanned as a preamble. -/
def sempRtcmReadLength1 (cfg : Config) (s : ParseState) (data : Nat) :
    ParseState × List Event × Bool :=
  if data &&& 0xFC ≠ 0 then sempFirstByte cfg s data
  else
    let sc := { s.scratch with rtcmBytesRemaining := u16 (data <<< 8) }
    ({ s with scratch := sc, state := .rtcmReadLength2 }, [], true)

/-- sempUbloxCkB (Parse_UBLOX.cpp): compare the received Fletcher-8 pair with
the computed one (consulting the bad-CRC callback on mismatch); the message is
delivered on acceptance and dropped otherwise, and the preamble search resumes
with the next byte. -/
def sempUbloxCkB (cfg : Config) (s : ParseState) (data : Nat) :
    ParseState × List Event × Bool :=
  let badChecksum : Bool :=
    !(s.buf (s.length - 2) == s.scratch.ck_a) ||
    !(s.buf (s.length - 1) == s.scratch.ck_b)
  let rq := if badChecksum then badCrcConsult cfg s
            else (false, ([] : List Event))
  let rescued := rq.1
  let qev := rq.2
  let ev := if !badChecksum || rescued
            then [Event.eom (extract s.buf s.length) s.ptype] else []
  ({ s with length := 0, state := .firstByte }, qev ++ ev, false)

/-- sempUbloxCkA: consume the CK_A byte. -/
def sempUbloxCkA (cfg : Config) (s : ParseState) (data : Nat) :
    ParseState × List Event × Bool :=
  ({ s with state := .ubloxCkB }, [], true)

/-- sempUbloxPayload: fold payload bytes into the Fletcher checksum; the
uint16_t bytesRemaining is post-decremented as in the source. -/
def sempUbloxPayload (cfg : Config) (s : ParseState) (data : Nat) :
    ParseState × List Event × Bool :=
  let old := s.scratch.ubxBytesRemaining
  let sc := { s.scratch with ubxBytesRemaining := u16sub old 1 }
  let s := { s with scratch := sc }
  if old ≠ 0 then
    let sc := { sc with ck_a := u8 (sc.ck_a + data) }
    let sc := { sc with ck_b := u8 (sc.ck_b + sc.ck_a) }
    ({ s with scratch := sc }, [], true)
  else sempUbloxCkA cfg s data

/-- sempUbloxLength2: the high length byte; a zero-length payload jumps
directly to the checksum. -/
def sempUbloxLength2 (cfg : Config) (s : ParseState) (data : Nat) :
    ParseState × List Event × Bool :=
  let sc := s.scratch
  let sc := { sc with ck_a := u8 (sc.ck_a + data) }
  let sc := { sc with ck_b := u8 (sc.ck_b + sc.ck_a) }
  let sc := { sc with ubxBytesRemaining := sc.ubxBytesRemaining ||| u16 (data <<< 8) }
  let sc := { sc with payloadLength := sc.ubxBytesRemaining }
  if sc.ubxBytesRemaining = 0 then
    ({ s with scratch := sc, state := .ubloxCkA }, [], true)
  else
    ({ s with scratch := sc, state := .ubloxPayload }, [], true)

/-- sempUbloxLength1: the low length byte. -/
def sempUbloxLength1 (cfg : Config) (s : ParseState) (data : Nat) :
    ParseState × List Event × Bool :=
  let sc := s.scratch
  let sc := { sc with ck_a := u8 (sc.ck_a + data) }
  let sc := { sc with ck_b := u8 (sc.ck_b + sc.ck_a) }
  let sc := { sc with ubxBytesRemaining := data }
  ({ s with scratch := sc, state := .ubloxLength2 }, [], true)

/-- sempUbloxId: the message ID byte. -/
def sempUbloxId (cfg : Config) (s : ParseState) (data : Nat) :
    ParseState × List Event × Bool :=
  let sc := s.scratch
  let sc := { sc with ck_a := u8 (sc.ck_a + data) }
  let sc := { sc with ck_b := u8 (sc.ck_b + sc.ck_a) }
  let sc := { sc with messageId := data }
  ({ s with scratch := sc, state := .ubloxLength1 }, [], true)

/-- sempUbloxClass: the class byte starts the Fletcher checksum. -/
def sempUbloxClass (cfg : Config) (s : ParseState) (data : Nat) :
    ParseState × List Event × Bool :=
  let sc := { s.scratch with ck_a := data, ck_b := data, messageClass := data }
  ({ s with scratch := sc, state := .ubloxId }, [], true)

/-- sempUbloxSync2: the second sync byte must be 0x62, otherwise the byte is
rescanned as a preamble. -/
def sempUbloxSync2 (cfg : Config) (s : ParseState) (data : Nat) :
    ParseState × List Event × Bool :=
  if data ≠ 0x62 then sempFirstByte cfg s data
  else ({ s with state := .ubloxClass }, [], true)

/-- sempSbfReadBytes (Parse_SBF.cpp): fold body bytes into the CCITT CRC;
when the block is complete compare with the expected CRC (consulting the
bad-CRC callback on mismatch), delivering the block on acceptance and
otherwise reporting it to the SBF parser-specific invalid-data callback. -/
def sempSbfReadBytes (cfg : Config) (s : ParseState) (data : Nat) :
    ParseState × List Event × Bool :=
  let sc := s.scratch
  let sc := { sc with computedCRC := semp_ccitt_crc_update sc.computedCRC data }
  let sc := { sc with sbfBytesRemaining := u16sub sc.sbfBytesRemaining 1 }
  let s := { s with scratch := sc }
  if sc.sbfBytesRemaining = 0 then
    let s := { s with state := .firstByte }
    let good : Bool := sc.computedCRC == sc.expectedCRC
    let rq := if good then (false, ([] : List Event)) else badCrcConsult cfg s
    let rescued := rq.1
    let qev := rq.2
    let ev := if good || rescued then [Event.eom (extract s.buf s.length) s.ptype]
              else if cfg.sbfInvalidData then [Event.sbfInvalid] else []
    (s, qev ++ ev, false)
  else (s, [], true)

/-- sempSbfLengthMSB (Parse_SBF.cpp): the high length byte; the 16-bit length
must be a multiple of 4, otherwise the frame is dropped, the SBF
parser-specific invalid-data callback is invoked and the preamble search
resumes with the next byte. -/
def sempSbfLengthMSB (cfg : Config) (s : ParseState) (data : Nat) :
    ParseState × List Event × Bool :=
  let sc := s.scratch
  let sc := { sc with computedCRC := semp_ccitt_crc_update sc.computedCRC data }
  let sc := { sc with sbfLength := sc.sbfLength ||| u16 (data <<< 8) }
  let s := { s with scratch := sc }
  if sc.sbfLength % 4 = 0 then
    -- Subtract the 8 header bytes
    let sc := { sc with sbfBytesRemaining := u16sub sc.sbfLength 8 }
    ({ s with scratch := sc, state := .sbfReadBytes }, [], true)
  else
    ({ s with state := .firstByte },
     if cfg.sbfInvalidData then [Event.sbfInvalid] else [], false)

/-- sempSbfLengthLSB: the low length byte. -/
def sempSbfLengthLSB (cfg : Config) (s : ParseState) (data : Nat) :
    ParseState × List Event × Bool :=
  let sc := s.scratch
  let sc := { sc with computedCRC := semp_ccitt_crc_update sc.computedCRC data }
  let sc := { sc with sbfLength := data }
  ({ s with scratch := sc, state := .sbfLengthMSB }, [], true)

/-- sempSbfID2: the high ID byte carries the 3-bit block revision; the block
ID is limited to 13 bits. -/
def sempSbfID2 (cfg : Config) (s : ParseState) (data : Nat) :
    ParseState × List Event × Bool :=
  let sc := s.scratch
  let sc := { sc with computedCRC := semp_ccitt_crc_update sc.computedCRC data }
  let sc := { sc with sbfID := (sc.sbfID ||| u16 (data <<< 8)) &&& 0x1FFF }
  let sc := { sc with sbfIDrev := data >>> 5 }
  ({ s with scratch := sc, state := .sbfLengthLSB }, [], true)

/-- sempSbfID1: the low ID byte. -/
def sempSbfID1 (cfg : Config) (s : ParseState) (data : Nat) :
    ParseState × List Event × Bool :=
  let sc := s.scratch
  let sc := { sc with computedCRC := semp_ccitt_crc_update sc.computedCRC data }
  let sc := { sc with sbfID := data }
  ({ s with scratch := sc, state := .sbfID2 }, [], true)

/-- sempSbfCRC2: the high byte of the expected CRC; the computed CRC starts
at zero from the following byte. -/
def sempSbfCRC2 (cfg : Config) (s : ParseState) (data : Nat) :
    ParseState × List Event × Bool :=
  let sc := s.scratch
  let sc := { sc with expectedCRC := sc.expectedCRC ||| u16 (data <<< 8),
                      computedCRC := 0 }
  ({ s with scratch := sc, state := .sbfID1 }, [], true)

/-- sempSbfCRC1: the low byte of the expected CRC. -/
def sempSbfCRC1 (cfg : Config) (s : ParseState) (data : Nat) :
    ParseState × List Event × Bool :=
  let sc := { s.scratch with expectedCRC := data }
  ({ s with scratch := sc, state := .sbfCRC2 }, [], true)

/-- sempSbfPreamble2: the second preamble byte must be the at sign; any other
byte is reported to the SBF parser-specific invalid-data callback and the
preamble search resumes with the next byte. -/
def sempSbfPreamble2 (cfg : Config) (s : ParseState) (data : Nat) :
    ParseState × List Event × Bool :=
  if data = 0x40 then ({ s with state := .sbfCRC1 }, [], true)
  else
    ({ s with state := .firstByte },
     if cfg.sbfInvalidData then [Event.sbfInvalid] else [], false)

/-- The expected SPARTN frame CRC, read big-endian from the buffer after the
payload according to the CRC type (sempSpartnReadTF018 switch). -/
def spartnExpectedCrc (crcType : Nat) (buf : Nat → Nat) (numBytes : Nat) : Nat :=
  match crcType with
  | 0 => buf numBytes
  | 1 => (u16 (buf numBytes <<< 8)) ||| buf (numBytes + 1)
  | 2 => ((buf numBytes) <<< 16) ||| ((buf (numBytes + 1)) <<< 8) |||
         buf (numBytes + 2)
  | _ => ((buf numBytes) <<< 24) ||| ((buf (numBytes + 1)) <<< 16) |||
         ((buf (numBytes + 2)) <<< 8) ||| buf (numBytes + 3)

/-- The computed SPARTN frame CRC over the bytes after the preamble
(sempSpartnReadTF018 switch). -/
def spartnComputedCrc (crcType : Nat) (buf : Nat → Nat) (numBytes : Nat) : Nat :=
  match crcType with
  | 0 => semp_uSpartnCrc8 (extractFrom buf 1 (numBytes - 1))
  | 1 => semp_uSpartnCrc16 (extractFrom buf 1 (numBytes - 1))
  | 2 => semp_uSpartnCrc24 (extractFrom buf 1 (numBytes - 1))
  | _ => semp_uSpartnCrc32 (extractFrom buf 1 (numBytes - 1))

/-- sempSpartnReadTF018 (Parse_SPARTN.cpp): count the CRC bytes; once they
have all arrived, compare the frame CRC (excluding the preamble) with the
trailing bytes, consulting the bad-CRC callback on mismatch; the frame is
delivered on acceptance and dropped otherwise. -/
def sempSpartnReadTF018 (cfg : Config) (s : ParseState) (data : Nat) :
    ParseState × List Event × Bool :=
  let sc := { s.scratch with frameCount := u16 (s.scratch.frameCount + 1) }
  let s := { s with scratch := sc }
  if sc.frameCount = sc.crcBytes then
    let numBytes := u16 (4 + sc.TF007toTF016 + sc.spartnPayloadLength +
                         sc.embeddedApplicationLengthBytes)
    let good : Bool := spartnComputedCrc sc.crcType s.buf numBytes ==
                       spartnExpectedCrc sc.crcType s.buf numBytes
    let rq := if good then (false, ([] : List Event)) else badCrcConsult cfg s
    let rescued := rq.1
    let qev := rq.2
    let ev := if good || rescued then [Event.eom (extract s.buf s.length) s.ptype]
              else []
    ({ s with state := .firstByte }, qev ++ ev, false)
  else (s, [], true)

/-- sempSpartnReadTF017: count the embedded-application bytes. -/
def sempSpartnReadTF017 (cfg : Config) (s : ParseState) (data : Nat) :
    ParseState × List Event × Bool :=
  let sc := { s.scratch with frameCount := u16 (s.scratch.frameCount + 1) }
  if sc.frameCount = sc.embeddedApplicationLengthBytes then
    ({ s with scratch := { sc with frameCount := 0 },
              state := .spartnReadTF018 }, [], true)
  else ({ s with scratch := sc }, [], true)

/-- sempSpartnReadTF016: count the payload bytes, then read the embedded
application bytes if any, else the CRC. -/
def sempSpartnReadTF016 (cfg : Config) (s : ParseState) (data : Nat) :
    ParseState × List Event × Bool :=
  let sc := { s.scratch with frameCount := u16 (s.scratch.frameCount + 1) }
  if sc.frameCount = sc.spartnPayloadLength then
    if 0 < sc.embeddedApplicationLengthBytes then
      ({ s with scratch := { sc with frameCount := 0 },
                state := .spartnReadTF017 }, [], true)
    else
      ({ s with scratch := { sc with frameCount := 0 },
                state := .spartnReadTF018 }, [], true)
  else ({ s with scratch := sc }, [], true)

/-- sempSpartnReadTF009: count through the extended header; its final byte
selects the authentication indicator and the embedded-application length. -/
def sempSpartnReadTF009 (cfg : Config) (s : ParseState) (data : Nat) :
    ParseState × List Event × Bool :=
  let sc := { s.scratch with frameCount := u16 (s.scratch.frameCount + 1) }
  if sc.frameCount = sc.TF007toTF016 then
    let sc :=
      if sc.EAF = 0 then
        { sc with authenticationIndicator := 0,
                  embeddedApplicationLengthBytes := 0 }
      else
        let sc := { sc with authenticationIndicator := (data >>> 3) &&& 0x07 }
        if sc.authenticationIndicator ≤ 1 then
          { sc with embeddedApplicationLengthBytes := 0 }
        else
          { sc with embeddedApplicationLengthBytes :=
              match data &&& 0x07 with
              | 0 => 8
              | 1 => 12
              | 2 => 16
              | 3 => 32
              | _ => 64 }
    ({ s with scratch := { sc with frameCount := 0 },
              state := .spartnReadTF016 }, [], true)
  else ({ s with scratch := sc }, [], true)

/-- sempSpartnReadTF007: the message subtype and time-tag bit select the
extended-header length (4 or 6 bytes, plus 2 when EAF is set). -/
def sempSpartnReadTF007 (cfg : Config) (s : ParseState) (data : Nat) :
    ParseState × List Event × Bool :=
  let sc := s.scratch
  let sc := { sc with messageSubtype := data >>> 4,
                      timeTagType := (data >>> 3) &&& 0x01 }
  let sc := { sc with TF007toTF016 := if sc.timeTagType = 0 then 4 else 6 }
  let sc := { sc with TF007toTF016 :=
    if 0 < sc.EAF then sc.TF007toTF016 + 2 else sc.TF007toTF016 }
  let sc := { sc with frameCount := 1 }
  ({ s with scratch := sc, state := .spartnReadTF009 }, [], true)

/-- sempSpartnReadTF002TF006 (Parse_SPARTN.cpp): accumulate the three packed
header bytes; the third byte carries the EAF flag, CRC type and the 4-bit
header CRC, which is validated over the header with its low nibble zeroed
(the source zeroes buffer[3] for the computation and then restores it); a
failed header CRC aborts to the preamble search. -/
def sempSpartnReadTF002TF006 (cfg : Config) (s : ParseState) (data : Nat) :
    ParseState × List Event × Bool :=
  let sc := s.scratch
  if sc.frameCount = 0 then
    let sc := { sc with messageType := data >>> 1,
                        spartnPayloadLength := data &&& 0x01 }
    ({ s with scratch := { sc with frameCount := u16 (sc.frameCount + 1) } },
     [], true)
  else if sc.frameCount = 1 then
    let sc := { sc with spartnPayloadLength :=
      (u16 (sc.spartnPayloadLength <<< 8)) ||| data }
    ({ s with scratch := { sc with frameCount := u16 (sc.frameCount + 1) } },
     [], true)
  else if sc.frameCount = 2 then
    let sc := { sc with spartnPayloadLength :=
      (u16 (sc.spartnPayloadLength <<< 1)) ||| (data >>> 7) }
    let sc := { sc with EAF := (data >>> 6) &&& 0x01,
                        crcType := (data >>> 4) &&& 0x03 }
    let sc := { sc with crcBytes :=
      match sc.crcType with
      | 0 => 1
      | 1 => 2
      | 2 => 3
      | _ => 4 }
    let sc := { sc with frameCRC := data &&& 0x0F }
    if semp_uSpartnCrc4 [s.buf 1, s.buf 2, (s.buf 3) &&& 0xF0] = sc.frameCRC then
      ({ s with scratch := { sc with frameCount := u16 (sc.frameCount + 1) },
                state := .spartnReadTF007 }, [], true)
    else
      ({ s with scratch := sc, state := .firstByte }, [], false)
  else
    ({ s with scratch := { sc with frameCount := u16 (sc.frameCount + 1) } },
     [], true)

/-- sempUnicoreBinaryReadCrc (Parse_Unicore_Binary.cpp): consume the four CRC
bytes; the message is delivered when the running CRC-32 (which already
includes the CRC bytes) is zero or the bad-CRC callback rescues it, and the
preamble search resumes with the next byte either way. -/
def sempUnicoreBinaryReadCrc (cfg : Config) (s : ParseState) (data : Nat) :
    ParseState × List Event × Bool :=
  let sc := { s.scratch with
    uniBinBytesRemaining := u16sub s.scratch.uniBinBytesRemaining 1 }
  let s := { s with scratch := sc }
  if sc.uniBinBytesRemaining ≠ 0 then (s, [], true)
  else
    let good : Bool := s.crc == 0
    let rq := if good then (false, ([] : List Event)) else badCrcConsult cfg s
    let rescued := rq.1
    let qev := rq.2
    let ev := if good || rescued then [Event.eom (extract s.buf s.length) s.ptype]
              else []
    ({ s with state := .firstByte }, qev ++ ev, false)

/-- sempUnicoreBinaryReadData: count down the body bytes, then capture the
CRC and read the four CRC bytes. -/
def sempUnicoreBinaryReadData (cfg : Config) (s : ParseState) (data : Nat) :
    ParseState × List Event × Bool :=
  let sc := { s.scratch with
    uniBinBytesRemaining := u16sub s.scratch.uniBinBytesRemaining 1 }
  if sc.uniBinBytesRemaining = 0 then
    let sc := { sc with uniBinBytesRemaining := 4, uniBinCrc := s.crc }
    ({ s with scratch := sc, state := .uniBinReadCrc }, [], true)
  else ({ s with scratch := sc }, [], true)

/-- sempUnicoreBinaryReadHeader: once the 24-byte header is complete, its
little-endian messageLength field (offset 6) gives the body size. -/
def sempUnicoreBinaryReadHeader (cfg : Config) (s : ParseState) (data : Nat) :
    ParseState × List Event × Bool :=
  if 24 ≤ s.length then
    let sc := { s.scratch with
      uniBinBytesRemaining := s.buf 6 ||| u16 ((s.buf 7) <<< 8) }
    ({ s with scratch := sc, state := .uniBinReadData }, [], true)
  else (s, [], true)

/-- sempUnicoreBinaryBinarySync3: the third sync byte must be 0xB5. -/
def sempUnicoreBinaryBinarySync3 (cfg : Config) (s : ParseState) (data : Nat) :
    ParseState × List Event × Bool :=
  if data ≠ 0xB5 then sempFirstByte cfg s data
  else ({ s with state := .uniBinReadHeader }, [], true)

/-- sempUnicoreBinaryBinarySync2: the second sync byte must be 0x44. -/
def sempUnicoreBinaryBinarySync2 (cfg : Config) (s : ParseState) (data : Nat) :
    ParseState × List Event × Bool :=
  if data ≠ 0x44 then sempFirstByte cfg s data
  else ({ s with state := .uniBinSync3 }, [], true)

/-- The received Unicore-hash two-character checksum (same int-conversion
collapse as `nmeaRxChecksum`). -/
def uniHashRxChecksum (s : ParseState) : Int :=
  let hi := sempAsciiToNibble (s.buf (s.length - 2))
  let lo := sempAsciiToNibble (s.buf (s.length - 1))
  if 0 ≤ hi ∧ 0 ≤ lo then 16 * hi + lo else -1

/-- The index of the first asterisk at or after index `i`, scanning at most
`fuel` bytes (the C do-while loop stops at the asterisk the state machine
guarantees to be present). -/
def findStar (buf : Nat → Nat) : Nat → Nat → Nat
  | i, 0 => i
  | i, fuel + 1 => if buf i = 42 then i else findStar buf (i + 1) fuel

/-- sempUnicoreHashValidatCrc (Parse_Unicore_Hash.cpp): CRC-32 over the bytes
between the hash and the asterisk (exclusive), compared with the eight
received hex characters; note the bad-CRC callback is NOT consulted on this
path; on success, after a space check, CR LF and an uncounted NUL are
appended and the sentence is delivered. -/
def sempUnicoreHashValidatCrc (cfg : Config) (s : ParseState) :
    ParseState × List Event :=
  let j := findStar s.buf 2 s.length
  let crc := (extractFrom s.buf 1 (j - 1)).foldl
    (fun c b => semp_crc32Table ((c ^^^ b) &&& 0xFF) ^^^ (c >>> 8)) 0
  let crcRx := ((hexNibble (s.buf (j + 1))) <<< 28) |||
               ((hexNibble (s.buf (j + 2))) <<< 24) |||
               ((hexNibble (s.buf (j + 3))) <<< 20) |||
               ((hexNibble (s.buf (j + 4))) <<< 16) |||
               ((hexNibble (s.buf (j + 5))) <<< 12) |||
               ((hexNibble (s.buf (j + 6))) <<< 8) |||
               ((hexNibble (s.buf (j + 7))) <<< 4) |||
               (hexNibble (s.buf (j + 8)))
  if crc ≠ crcRx then (s, [])
  -- UNICORE_HASH_BUFFER_OVERHEAD = 1 + 1 + 1
  else if s.bufferLength < s.length + 3 then
    ({ s with state := .firstByte }, [])
  else
    let buf := store s.buf s.length 13
    let buf := store buf (s.length + 1) 10
    let buf := store buf (s.length + 2) 0
    let s := { s with buf := buf, length := s.length + 2 }
    (s, [Event.eom (extract s.buf s.length) s.ptype])

/-- sempUnicoreHashValidateChecksum (Parse_Unicore_Hash.cpp): sentences with
more than two checksum characters use the CRC-32 path; otherwise the
two-character XOR checksum is compared (consulting the bad-CRC callback on
mismatch) and on acceptance CR LF and an uncounted NUL are appended — with no
buffer-space check on this path — and the sentence is delivered. -/
def sempUnicoreHashValidateChecksum (cfg : Config) (s : ParseState) :
    ParseState × List Event :=
  if 2 < s.scratch.checksumBytes then sempUnicoreHashValidatCrc cfg s
  else
    let matched : Bool := uniHashRxChecksum s == (s.crc : Int)
    let rq := if matched then (false, ([] : List Event)) else badCrcConsult cfg s
    let rescued := rq.1
    let qev := rq.2
    if matched || rescued then
      let buf := store s.buf s.length 13
      let buf := store buf (s.length + 1) 10
      let buf := store buf (s.length + 2) 0
      let s := { s with buf := buf, length := s.length + 2 }
      (s, qev ++ [Event.eom (extract s.buf s.length) s.ptype])
    else (s, qev)

/-- sempUnicoreHashLineFeed: consume an optional line feed (the current byte
is first removed from the length). -/
def sempUnicoreHashLineFeed (cfg : Config) (s : ParseState) (data : Nat) :
    ParseState × List Event × Bool :=
  let s := { s with length := s.length - 1 }
  if data = 10 then
    let rv := sempUnicoreHashValidateChecksum cfg s
    ({ rv.1 with state := .firstByte }, rv.2, true)
  else
    let rv := sempUnicoreHashValidateChecksum cfg s
    let r2 := sempFirstByte cfg rv.1 data
    (r2.1, rv.2 ++ r2.2.1, r2.2.2)

/-- sempUnicoreHashCarriageReturn: consume an optional carriage return (the
current byte is first removed from the length). -/
def sempUnicoreHashCarriageReturn (cfg : Config) (s : ParseState) (data : Nat) :
    ParseState × List Event × Bool :=
  let s := { s with length := s.length - 1 }
  if data = 13 then
    let rv := sempUnicoreHashValidateChecksum cfg s
    ({ rv.1 with state := .firstByte }, rv.2, true)
  else
    let rv := sempUnicoreHashValidateChecksum cfg s
    let r2 := sempFirstByte cfg rv.1 data
    (r2.1, rv.2 ++ r2.2.1, r2.2.2)

/-- sempUnicoreHashLineTermination: after the checksum accept one optional CR
or LF in either order; any other byte validates the sentence and is rescanned
(the current byte is first removed from the length). -/
def sempUnicoreHashLineTermination (cfg : Config) (s : ParseState) (data : Nat) :
    ParseState × List Event × Bool :=
  let s := { s with length := s.length - 1 }
  if data = 13 then ({ s with state := .uniHashLineFeed }, [], true)
  else if data = 10 then ({ s with state := .uniHashCarriageReturn }, [], true)
  else
    let rv := sempUnicoreHashValidateChecksum cfg s
    let r2 := sempFirstByte cfg rv.1 data
    (r2.1, rv.2 ++ r2.2.1, r2.2.2)

/-- sempUnicoreHashChecksumByte: iterate over the checksum characters, which
must all be hex digits; a non-hex character rescans the byte with no
invalid-data report. -/
def sempUnicoreHashChecksumByte (cfg : Config) (s : ParseState) (data : Nat) :
    ParseState × List Event × Bool :=
  let sc := { s.scratch with
    uhBytesRemaining := u8sub s.scratch.uhBytesRemaining 1 }
  let s := { s with scratch := sc }
  if sempAsciiToNibble (s.buf (s.length - 1)) < 0 then sempFirstByte cfg s data
  else if sc.uhBytesRemaining = 0 then
    ({ s with state := .uniHashLineTermination }, [], true)
  else (s, [], true)

/-- sempUnicoreHashFindAsterisk: accumulate body bytes into the XOR checksum
until the asterisk, aborting on non-printable characters when enabled and
keeping room for the CR, LF and NUL trailer. -/
def sempUnicoreHashFindAsterisk (cfg : Config) (s : ParseState) (data : Nat) :
    ParseState × List Event × Bool :=
  if data = 42 then
    let sc := { s.scratch with uhBytesRemaining := s.scratch.checksumBytes }
    ({ s with scratch := sc, state := .uniHashChecksumByte }, [], true)
  else
    let s := { s with crc := s.crc ^^^ data }
    if s.unicoreHashAbortOnNonPrintable &&
       (decide (data < 32) || decide (126 < data)) then
      sempFirstByte cfg s data
    -- UNICORE_HASH_BUFFER_OVERHEAD = 1 + 1 + 1
    else if decide (s.bufferLength < s.length + 3) then
      sempFirstByte cfg s data
    else (s, [], true)

/-- sempUnicoreHashFindFirstComma (Parse_Unicore_Hash.cpp): collect the
sentence name until the first comma; the terminated name selects two checksum
characters when it contains "MODE" (strstr) and eight otherwise; invalid name
bytes are rescanned with no invalid-data report. -/
def sempUnicoreHashFindFirstComma (cfg : Config) (s : ParseState) (data : Nat) :
    ParseState × List Event × Bool :=
  let s := { s with crc := s.crc ^^^ data }
  if data ≠ 44 ∨ s.scratch.uhSentenceNameLength = 0 then
    let upper := data &&& 0xDF
    if (upper < 65 ∨ 90 < upper) ∧ (data < 48 ∨ 57 < data) then
      sempFirstByte cfg s data
    else if s.scratch.uhSentenceNameLength = 15 then
      sempFirstByte cfg s data
    else
      let sc := s.scratch
      let sc := { sc with
        uhSentenceName := store sc.uhSentenceName sc.uhSentenceNameLength data,
        uhSentenceNameLength := sc.uhSentenceNameLength + 1 }
      ({ s with scratch := sc }, [], true)
  else
    let sc := s.scratch
    let sc := { sc with
      uhSentenceName := store sc.uhSentenceName sc.uhSentenceNameLength 0,
      uhSentenceNameLength := sc.uhSentenceNameLength + 1 }
    -- strstr(sentenceName, "MODE")
    let modeWord : List Nat := [77, 79, 68, 69]
    let csb : Nat :=
      if subMatch modeWord (cString sc.uhSentenceName 0 16) then 2 else 8
    let sc := { sc with checksumBytes := csb }
    ({ s with scratch := sc, state := .uniHashFindAsterisk }, [], true)

/-- Dispatch on the active state routine (the parse->state function pointer). -/
def sempStateStep (cfg : Config) (s : ParseState) (data : Nat) :
    ParseState × List Event × Bool :=
  match s.state with
  | .firstByte => sempFirstByte cfg s data
  | .nmeaFindFirstComma => sempNmeaFindFirstComma cfg s data
  | .nmeaFindAsterisk => sempNmeaFindAsterisk cfg s data
  | .nmeaChecksumByte1 => sempNmeaChecksumByte1 cfg s data
  | .nmeaChecksumByte2 => sempNmeaChecksumByte2 cfg s data
  | .nmeaLineTermination => sempNmeaLineTermination cfg s data
  | .nmeaCarriageReturn => sempNmeaCarriageReturn cfg s data
  | .nmeaLineFeed => sempNmeaLineFeed cfg s data
  | .rtcmReadLength1 => sempRtcmReadLength1 cfg s data
  | .rtcmReadLength2 => sempRtcmReadLength2 cfg s data
  | .rtcmReadMessage1 => sempRtcmReadMessage1 cfg s data
  | .rtcmReadMessage2 => sempRtcmReadMessage2 cfg s data
  | .rtcmReadData => sempRtcmReadData cfg s data
  | .rtcmReadCrc => sempRtcmReadCrc cfg s data
  | .ubloxSync2 => sempUbloxSync2 cfg s data
  | .ubloxClass => sempUbloxClass cfg s data
  | .ubloxId => sempUbloxId cfg s data
  | .ubloxLength1 => sempUbloxLength1 cfg s data
  | .ubloxLength2 => sempUbloxLength2 cfg s data
  | .ubloxPayload => sempUbloxPayload cfg s data
  | .ubloxCkA => sempUbloxCkA cfg s data
  | .ubloxCkB => sempUbloxCkB cfg s data
  | .sbfPreamble2 => sempSbfPreamble2 cfg s data
  | .sbfCRC1 => sempSbfCRC1 cfg s data
  | .sbfCRC2 => sempSbfCRC2 cfg s data
  | .sbfID1 => sempSbfID1 cfg s data
  | .sbfID2 => sempSbfID2 cfg s data
  | .sbfLengthLSB => sempSbfLengthLSB cfg s data
  | .sbfLengthMSB => sempSbfLengthMSB cfg s data
  | .sbfReadBytes => sempSbfReadBytes cfg s data
  | .spartnReadTF002TF006 => sempSpartnReadTF002TF006 cfg s data
  | .spartnReadTF007 => sempSpartnReadTF007 cfg s data
  | .spartnReadTF009 => sempSpartnReadTF009 cfg s data
  | .spartnReadTF016 => sempSpartnReadTF016 cfg s data
  | .spartnReadTF017 => sempSpartnReadTF017 cfg s data
  | .spartnReadTF018 => sempSpartnReadTF018 cfg s data
  | .uniBinSync2 => sempUnicoreBinaryBinarySync2 cfg s data
  | .uniBinSync3 => sempUnicoreBinaryBinarySync3 cfg s data
  | .uniBinReadHeader => sempUnicoreBinaryReadHeader cfg s data
  | .uniBinReadData => sempUnicoreBinaryReadData cfg s data
  | .uniBinReadCrc => sempUnicoreBinaryReadCrc cfg s data
  | .uniHashFindFirstComma => sempUnicoreHashFindFirstComma cfg s data
  | .uniHashFindAsterisk => sempUnicoreHashFindAsterisk cfg s data
  | .uniHashChecksumByte => sempUnicoreHashChecksumByte cfg s data
  | .uniHashLineTermination => sempUnicoreHashLineTermination cfg s data
  | .uniHashCarriageReturn => sempUnicoreHashCarriageReturn cfg s data
  | .uniHashLineFeed => sempUnicoreHashLineFeed cfg s data

/-- sempParseNextByte (SparkFun_Extensible_Message_Parser.cpp): when the
buffer is full, report the buffered bytes to the invalid-data callback and
rescan this byte via sempFirstByte; otherwise append the byte, fold it into
the running CRC when a CRC function is active, and run the active state
routine. -/
def sempParseNextByte (cfg : Config) (s : ParseState) (data : Nat) :
    ParseState × List Event :=
  if s.bufferLength ≤ s.length then
    let ev := if cfg.invalidData then [Event.invalid (extract s.buf s.length)]
              else []
    let r2 := sempFirstByte cfg s data
    (r2.1, ev ++ r2.2.1)
  else
    let s := { s with buf := store s.buf s.length data, length := s.length + 1 }
    let s := match s.computeCrc with
      | some f => { s with crc := crcApply f s.crc data }
      | none => s
    let r2 := sempStateStep cfg s data
    (r2.1, r2.2.1)

/-- sempParseNextBytes: the for loop over the data bytes. -/
def sempParseNextBytes (cfg : Config) (s : ParseState) :
    List Nat → ParseState × List Event
  | [] => (s, [])
  | b :: rest =>
      let r1 := sempParseNextByte cfg s b
      let r2 := sempParseNextBytes cfg r1.1 rest
      (r2.1, r1.2 ++ r2.2)

/-- The sequential composition sempParseNextByte(s, d[0]); ...;
sempParseNextByte(s, d[n-1]), written as a left fold accumulating the
callback trace (the observational reading of the claim about
sempParseNextBytes). -/
def parseBytesSeq (cfg : Config) (s : ParseState) (l : List Nat) :
    ParseState × List Event :=
  l.foldl
    (fun acc b =>
      let r1 := sempParseNextByte cfg acc.1 b
      (r1.1, acc.2 ++ r1.2))
    (s, [])

/-- The zero-initialised scratch pad (sempBeginParser clears the buffer). -/
def initScratch : Scratch where
  sentenceName := fun _ => 0
  sentenceNameLength := 0
  rtcmCrc := 0
  rtcmBytesRemaining := 0
  rtcmMessage := 0
  ubxBytesRemaining := 0
  messageClass := 0
  messageId := 0
  payloadLength := 0
  ck_a := 0
  ck_b := 0
  expectedCRC := 0
  computedCRC := 0
  sbfID := 0
  sbfIDrev := 0
  sbfLength := 0
  sbfBytesRemaining := 0
  frameCount := 0
  crcBytes := 0
  TF007toTF016 := 0
  messageType := 0
  spartnPayloadLength := 0
  EAF := 0
  crcType := 0
  frameCRC := 0
  messageSubtype := 0
  timeTagType := 0
  authenticationIndicator := 0
  embeddedApplicationLengthBytes := 0
  uniBinCrc := 0
  uniBinBytesRemaining := 0
  uhBytesRemaining := 0
  checksumBytes := 0
  uhSentenceName := fun _ => 0
  uhSentenceNameLength := 0

/-- The size-relevant fields of a SEMP_PARSER_DESCRIPTION. -/
structure ParserSizes where
  minimumParseAreaBytes : Nat
  scratchPadBytes : Nat
  payloadOffset : Nat
  deriving DecidableEq, Repr

/-- SEMP_ALIGN: align to the next multiple of 8 (the C writes
`(x + 7) & ~7`). -/
def SEMP_ALIGN (x : Nat) : Nat := (x + 7) - (x + 7) % 8

/-- The maxima sempComputeBufferOverhead collects over the parser table. -/
structure BufferOverhead where
  parseAreaBytes : Nat
  payloadOffset : Nat
  parseStateBytes : Nat
  scratchPadBytes : Nat
  deriving DecidableEq, Repr

/-- sempComputeBufferOverhead (SparkFun_Extensible_Message_Parser.cpp):
maximise the minimum parse area, payload offset and scratch-pad size over the
table, align the parse-state header (whose platform-dependent byte size is
the parameter `sizeofParseState`) and the scratch area, and return the
overhead, the sum of the two aligned areas. -/
def sempComputeBufferOverhead (sizeofParseState : Nat)
    (parserTable : List ParserSizes) : BufferOverhead :=
  let minParseArea := parserTable.foldl
    (fun m d => if m < d.minimumParseAreaBytes then d.minimumParseAreaBytes else m) 0
  let minPayloadOffset := parserTable.foldl
    (fun m d => if m < d.payloadOffset then d.payloadOffset else m) 0
  let minScratchArea := parserTable.foldl
    (fun m d => if m < d.scratchPadBytes then d.scratchPadBytes else m) 0
  { parseAreaBytes := minParseArea
    payloadOffset := minPayloadOffset
    parseStateBytes := SEMP_ALIGN sizeofParseState
    scratchPadBytes := SEMP_ALIGN minScratchArea }

/-- The total buffer overhead (return value of sempComputeBufferOverhead). -/
def bufferOverheadTotal (o : BufferOverhead) : Nat :=
  o.parseStateBytes + o.scratchPadBytes

/-- The partition of the caller-supplied buffer sempBeginParser performs. -/
structure BeginResult where
  scratchPadOffset : Nat
  parseBufferOffset : Nat
  parseBufferLength : Nat
  parserCount : Nat
  initialType : Nat
  deriving DecidableEq, Repr

/-- sempBeginParser (SparkFun_Extensible_Message_Parser.cpp), at the level of
argument validation and buffer partitioning: a null or empty table name, a
null table, a null buffer, a missing EOM callback, an empty table, or a
buffer with no room for any parse area (bufferLength ≤ overhead) refuse with
a null result.  A buffer smaller than overhead + max(minimum parse area,
payload offset) only triggers a warning ("Continuing on to support
testing!"); the state is still constructed.  `parserTableName = none` models
a null name pointer. -/
def sempBeginParser (sizeofParseState : Nat) (parserTableName : Option String)
    (parserTable : Option (List ParserSizes)) (bufferProvided : Bool)
    (bufferLength : Nat) (eomCallbackProvided : Bool) : Option BeginResult :=
  if parserTableName = none ∨ parserTableName.getD "" = "" then none
  else if parserTable = none then none
  else if bufferProvided = false then none
  else if eomCallbackProvided = false then none
  else
    let tbl := parserTable.getD []
    if tbl.length = 0 then none
    else
      let overhead := sempComputeBufferOverhead sizeofParseState tbl
      if bufferLength ≤ bufferOverheadTotal overhead then none
      else
        -- the undersized-parse-area case only warns and continues
        some
          { scratchPadOffset := overhead.parseStateBytes
            parseBufferOffset := overhead.parseStateBytes + overhead.scratchPadBytes
            parseBufferLength := bufferLength - bufferOverheadTotal overhead
            parserCount := tbl.length
            initialType := tbl.length }

/-- The parse state sempBeginParser hands back: zeroed buffer and CRC, state
sempFirstByte, active type = parserCount ("no active parser"). -/
def initState (cfg : Config) (bufferLength : Nat) : ParseState where
  buf := fun _ => 0
  bufferLength := bufferLength
  length := 0
  crc := 0
  computeCrc := none
  state := .firstByte
  ptype := cfg.parsers.length
  scratch := initScratch
  nmeaAbortOnNonPrintable := false
  unicoreHashAbortOnNonPrintable := false

/-! ## Helper lemmas -/

theorem eomCount_append (a b : List Event) :
    eomCount (a ++ b) = eomCount a + eomCount b := by
  simp [eomCount, List.filter_append]

theorem queryCount_append (a b : List Event) :
    queryCount (a ++ b) = queryCount a + queryCount b := by
  simp [queryCount, List.filter_append]

theorem preambleFn_keeps_buffer (p : ParserId) (cfg : Config) (s : ParseState)
    (d : Nat) :
    (preambleFn p cfg s d).1.length = s.length ∧
    (preambleFn p cfg s d).1.buf = s.buf := by
  cases p <;>
    simp only [preambleFn, sempNmeaPreamble, sempRtcmPreamble, sempUbloxPreamble,
      sempSbfPreamble, sempSpartnPreamble, sempUnicoreBinaryPreamble,
      sempUnicoreHashPreamble] <;>
    split <;> exact ⟨rfl, rfl⟩

theorem preambleFn_no_eom (p : ParserId) (cfg : Config) (s : ParseState)
    (d : Nat) :
    eomCount (preambleFn p cfg s d).2.1 = 0 := by
  cases p <;>
    simp only [preambleFn, sempNmeaPreamble, sempRtcmPreamble, sempUbloxPreamble,
      sempSbfPreamble, sempSpartnPreamble, sempUnicoreBinaryPreamble,
      sempUnicoreHashPreamble] <;>
    split <;> simp [eomCount]

theorem sempFirstByteLoop_keeps_buffer (cfg : Config) (data : Nat) :
    ∀ (l : List ParserId) (i : Nat) (s : ParseState),
      (sempFirstByteLoop cfg data l i s).1.length = s.length ∧
      (sempFirstByteLoop cfg data l i s).1.buf = s.buf := by
  intro l
  induction l with
  | nil => intro i s; exact ⟨rfl, rfl⟩
  | cons p rest ih =>
      intro i s
      simp only [sempFirstByteLoop]
      split
      · exact preambleFn_keeps_buffer p cfg { s with ptype := i } data
      · have h1 := preambleFn_keeps_buffer p cfg { s with ptype := i } data
        have h2 := ih (i + 1) (preambleFn p cfg { s with ptype := i } data).1
        exact ⟨h2.1.trans h1.1, h2.2.trans h1.2⟩

theorem sempFirstByteLoop_no_eom (cfg : Config) (data : Nat) :
    ∀ (l : List ParserId) (i : Nat) (s : ParseState),
      eomCount (sempFirstByteLoop cfg data l i s).2.1 = 0 := by
  intro l
  induction l with
  | nil =>
      intro i s
      simp only [sempFirstByteLoop]
      split <;> simp [eomCount]
  | cons p rest ih =>
      intro i s
      simp only [sempFirstByteLoop]
      split
      · exact preambleFn_no_eom p cfg { s with ptype := i } data
      · rw [eomCount_append, preambleFn_no_eom, ih]

/-- After sempFirstByte the length is one and the byte sits at index 0. -/
theorem sempFirstByte_keeps_byte (cfg : Config) (s : ParseState) (d : Nat) :
    (sempFirstByte cfg s d).1.length = 1 ∧
    (sempFirstByte cfg s d).1.buf 0 = d := by
  unfold sempFirstByte
  have h := sempFirstByteLoop_keeps_buffer cfg d cfg.parsers 0
    { s with crc := 0, computeCrc := none, length := 1,
             buf := store s.buf 0 d }
  refine ⟨h.1, ?_⟩
  rw [h.2]
  simp [store]

/-- sempFirstByte never delivers a message. -/
theorem sempFirstByte_no_eom (cfg : Config) (s : ParseState) (d : Nat) :
    eomCount (sempFirstByte cfg s d).2.1 = 0 := by
  unfold sempFirstByte
  exact sempFirstByteLoop_no_eom cfg d cfg.parsers 0 _

theorem parseBytesSeq_go (cfg : Config) :
    ∀ (l : List Nat) (s : ParseState) (acc : List Event),
      l.foldl
        (fun acc b =>
          let r1 := sempParseNextByte cfg acc.1 b
          (r1.1, acc.2 ++ r1.2)) (s, acc) =
      ((sempParseNextBytes cfg s l).1, acc ++ (sempParseNextBytes cfg s l).2) := by
  intro l
  induction l with
  | nil => intro s acc; simp [sempParseNextBytes]
  | cons b bs ih =>
      intro s acc
      simp only [List.foldl, sempParseNextBytes]
      rw [ih]
      simp [List.append_assoc]

/-! ## Claims -/

/-- C10: for every parse state, byte list and configuration,
sempParseNextBytes is observationally equivalent to the sequence of
sempParseNextByte calls on the individual bytes — same final state, same
callback events in the same order — and on the empty list it leaves the state
unchanged and produces no callback. -/
theorem sempParseNextBytes_is_byte_iteration (cfg : Config) (s : ParseState)
    (l : List Nat) :
    sempParseNextBytes cfg s l = parseBytesSeq cfg s l ∧
    sempParseNextBytes cfg s [] = (s, []) := by
  constructor
  · unfold parseBytesSeq
    rw [parseBytesSeq_go]
    simp
  · rfl

/-- C4: when the buffer is full (length has reached bufferLength),
sempParseNextByte does not append the byte; it reports the buffered bytes to
the invalid-data callback when registered and re-enters sempFirstByte on this
very byte, which resets the length and stores the byte at buffer index 0 to
be re-examined by the preamble predicates (and delivers no message). -/
theorem sempParseNextByte_bufferFull (cfg : Config) (s : ParseState) (b : Nat)
    (h : s.bufferLength ≤ s.length) :
    sempParseNextByte cfg s b =
      ((sempFirstByte cfg s b).1,
        (if cfg.invalidData then [Event.invalid (extract s.buf s.length)] else [])
          ++ (sempFirstByte cfg s b).2.1) ∧
    (sempFirstByte cfg s b).1.length = 1 ∧
    (sempFirstByte cfg s b).1.buf 0 = b ∧
    eomCount (sempFirstByte cfg s b).2.1 = 0 := by
  refine ⟨?_, (sempFirstByte_keeps_byte cfg s b).1,
    (sempFirstByte_keeps_byte cfg s b).2, sempFirstByte_no_eom cfg s b⟩
  unfold sempParseNextByte
  rw [if_pos h]

/-- Witness for C4 at a concrete full buffer. -/
def c4Cfg : Config :=
  { parsers := [.nmea], badCrc := none, invalidData := true,
    sbfInvalidData := false }

/-- A parse state whose buffer is full (length = bufferLength = 5). -/
def c4State : ParseState := { initState c4Cfg 5 with length := 5 }

/-- Witness: C4 instantiated at the full 5-byte buffer and the byte 0x24. -/
theorem sempParseNextByte_bufferFull_witness :
    sempParseNextByte c4Cfg c4State 36 =
      ((sempFirstByte c4Cfg c4State 36).1,
        (if c4Cfg.invalidData then
          [Event.invalid (extract c4State.buf c4State.length)] else [])
          ++ (sempFirstByte c4Cfg c4State 36).2.1) ∧
    (sempFirstByte c4Cfg c4State 36).1.length = 1 ∧
    (sempFirstByte c4Cfg c4State 36).1.buf 0 = 36 ∧
    eomCount (sempFirstByte c4Cfg c4State 36).2.1 = 0 :=
  sempParseNextByte_bufferFull c4Cfg c4State 36 (by decide)

/-- The table for the dispatch-priority scenario: RTCM registered first, NMEA
second; both are consulted on a dollar sign, which only NMEA accepts. -/
def c1Cfg : Config :=
  { parsers := [.rtcm, .nmea], badCrc := none, invalidData := false,
    sbfInvalidData := false }

/-- The freshly initialised state for the dispatch-priority scenario. -/
def c1State : ParseState := initState c1Cfg 100

/-- C1: the claim describes sempFirstByte consulting the registered preamble
predicates in registration order and latching the earliest acceptor; the
documented dispatch (modelled by `sempFirstByte`) indeed latches NMEA (index
1) on a dollar sign with RTCM registered first — but the source dereferences
`parse->parsers[index]` with the local `index` never initialised, and for
every possible value of that indeterminate read (`sempFirstByteAsWritten`)
the outcome differs from the documented dispatch: the latched parser index is
never 1. -/
theorem sempFirstByte_uninitialized_index (idx : Nat) (h : idx < 2) :
    (sempFirstByte c1Cfg c1State 36).1.ptype = 1 ∧
    (sempFirstByte c1Cfg c1State 36).1.state = PState.nmeaFindFirstComma ∧
    (sempFirstByteAsWritten c1Cfg idx c1State 36).1.ptype ≠
      (sempFirstByte c1Cfg c1State 36).1.ptype := by
  interval_cases idx <;> refine ⟨by decide, by decide, by decide⟩

/-- Witness: C1's divergence theorem applied at the concrete index value 0. -/
theorem sempFirstByte_uninitialized_index_witness :
    (sempFirstByte c1Cfg c1State 36).1.ptype = 1 ∧
    (sempFirstByte c1Cfg c1State 36).1.state = PState.nmeaFindFirstComma ∧
    (sempFirstByteAsWritten c1Cfg 0 c1State 36).1.ptype ≠
      (sempFirstByte c1Cfg c1State 36).1.ptype :=
  sempFirstByte_uninitialized_index 0 (by decide)

/-- The size fields of sempNmeaParserDescription (Parse_NMEA.cpp):
minimumParseAreaBytes 82, scratchPadBytes sizeof(SEMP_NMEA_VALUES) = 17,
payloadOffset 0. -/
def nmeaSizes : ParserSizes :=
  { minimumParseAreaBytes := 82, scratchPadBytes := 17, payloadOffset := 0 }

/-- C3 counterexample: with a 96-byte parse-state header and the NMEA
description, the overhead is 96 + 24 = 120 and the claim demands refusal for
every buffer below 120 + 82 = 202 bytes; yet sempBeginParser accepts a
121-byte buffer (one byte of parse area), merely warning.  The claim as
stated is false on the code. -/
theorem sempBeginParser_undersized_accepted :
    121 < bufferOverheadTotal (sempComputeBufferOverhead 96 [nmeaSizes]) +
      (sempComputeBufferOverhead 96 [nmeaSizes]).parseAreaBytes ∧
    (sempBeginParser 96 (some "Test") (some [nmeaSizes]) true 121 true).isSome
      = true := by
  constructor
  · decide
  · decide

/-- C3 (amended): sempBeginParser returns the null handle exactly when an
argument is invalid (null or empty table name, null table, null buffer,
missing EOM callback, empty table) or the buffer cannot even hold the
parse-state header plus the aligned scratch pad plus one byte of parse area;
a buffer merely smaller than the largest minimum parse area is accepted with
a warning. -/
theorem sempBeginParser_none_iff (sz : Nat) (name : Option String)
    (tbl : Option (List ParserSizes)) (bufP : Bool) (len : Nat) (eomP : Bool) :
    sempBeginParser sz name tbl bufP len eomP = none ↔
      (name = none ∨ name.getD "" = "" ∨ tbl = none ∨ bufP = false ∨
       eomP = false ∨ (tbl.getD []).length = 0 ∨
       len ≤ bufferOverheadTotal (sempComputeBufferOverhead sz (tbl.getD []))) := by
  unfold sempBeginParser
  split_ifs <;> simp_all <;> tauto

/-- C5: whenever the NMEA checksum validates (or the bad-CRC callback rescues
the sentence) and the trailer fits, sempNmeaValidateChecksum appends a
carriage return and a line feed, sets the length to the validated content
plus two, writes an uncounted NUL after them, leaves the sentence bytes
untouched, and delivers exactly one end-of-message callback — for any number
of trailing bytes to ignore, hence regardless of which line-termination path
(no terminator, CR, LF, CR LF or LF CR) led here. -/
theorem sempNmeaValidateChecksum_delivery (cfg : Config) (s : ParseState)
    (n : Nat)
    (hok : ((nmeaRxChecksum s (s.length - n) == (s.crc : Int)) ||
            rescueBool cfg s) = true)
    (hroom : s.length - n + 2 ≤ s.bufferLength) :
    eomCount (sempNmeaValidateChecksum cfg s n).2.1 = 1 ∧
    (sempNmeaValidateChecksum cfg s n).2.1 =
      (if nmeaRxChecksum s (s.length - n) == (s.crc : Int) then []
       else [Event.badCrcQuery]) ++
      [Event.eom (extract (sempNmeaValidateChecksum cfg s n).1.buf
                    (s.length - n + 2)) s.ptype] ∧
    (sempNmeaValidateChecksum cfg s n).1.length = s.length - n + 2 ∧
    (sempNmeaValidateChecksum cfg s n).1.buf (s.length - n) = 13 ∧
    (sempNmeaValidateChecksum cfg s n).1.buf (s.length - n + 1) = 10 ∧
    (sempNmeaValidateChecksum cfg s n).1.buf (s.length - n + 2) = 0 ∧
    (∀ i, i < s.length - n → (sempNmeaValidateChecksum cfg s n).1.buf i = s.buf i) ∧
    (sempNmeaValidateChecksum cfg s n).2.2 = true := by
  by_cases hm : (nmeaRxChecksum s (s.length - n) == (s.crc : Int)) = true
  · have hres : sempNmeaValidateChecksum cfg s n =
        (let buf := store s.buf (s.length - n) 13
         let buf := store buf (s.length - n + 1) 10
         let buf := store buf (s.length - n + 2) 0
         ({ s with buf := buf, length := s.length - n + 2 },
          [Event.eom (extract buf (s.length - n + 2)) s.ptype], true)) := by
      simp only [sempNmeaValidateChecksum, hm]
      rw [if_pos (by simp [hroom])]
      simp
    rw [hres]
    refine ⟨by simp [eomCount], by simp [hm], rfl, ?_, ?_, ?_, ?_, rfl⟩
    · simp only [store]
      have h1 : s.length - n ≠ s.length - n + 2 := by omega
      have h2 : s.length - n ≠ s.length - n + 1 := by omega
      simp [h1, h2]
    · simp only [store]
      have h1 : s.length - n + 1 ≠ s.length - n + 2 := by omega
      simp [h1]
    · simp [store]
    · intro i hi
      simp only [store]
      have h1 : i ≠ s.length - n + 2 := by omega
      have h2 : i ≠ s.length - n + 1 := by omega
      have h3 : i ≠ s.length - n := by omega
      simp [h1, h2, h3]
  · have hm' : (nmeaRxChecksum s (s.length - n) == (s.crc : Int)) = false := by
      simpa using hm
    have hr : rescueBool cfg s = true := by
      rw [hm'] at hok
      simpa using hok
    obtain ⟨f, hf⟩ : ∃ f, cfg.badCrc = some f := by
      cases hb : cfg.badCrc with
      | none => rw [rescueBool, hb] at hr; simp at hr
      | some f => exact ⟨f, rfl⟩
    have hfs : f s = false := by
      rw [rescueBool, hf] at hr
      simpa using hr
    have hres : sempNmeaValidateChecksum cfg s n =
        (let buf := store s.buf (s.length - n) 13
         let buf := store buf (s.length - n + 1) 10
         let buf := store buf (s.length - n + 2) 0
         ({ s with buf := buf, length := s.length - n + 2 },
          [Event.badCrcQuery,
           Event.eom (extract buf (s.length - n + 2)) s.ptype], true)) := by
      simp only [sempNmeaValidateChecksum, hm', badCrcConsult, hf]
      rw [if_pos (by simp [hfs, hroom])]
      simp
    rw [hres]
    refine ⟨by simp [eomCount], by simp [hm'], rfl, ?_, ?_, ?_, ?_, rfl⟩
    · simp only [store]
      have h1 : s.length - n ≠ s.length - n + 2 := by omega
      have h2 : s.length - n ≠ s.length - n + 1 := by omega
      simp [h1, h2]
    · simp only [store]
      have h1 : s.length - n + 1 ≠ s.length - n + 2 := by omega
      simp [h1]
    · simp [store]
    · intro i hi
      simp only [store]
      have h1 : i ≠ s.length - n + 2 := by omega
      have h2 : i ≠ s.length - n + 1 := by omega
      have h3 : i ≠ s.length - n := by omega
      simp [h1, h2, h3]

/-- Configuration for the concrete NMEA delivery witness. -/
def c5Cfg : Config :=
  { parsers := [.nmea], badCrc := none, invalidData := true,
    sbfInvalidData := false }

/-- The sentence "$GPGGA,123519,4807.038,N*27" (27 bytes; 0x27 is the XOR of
the body between the dollar sign and the asterisk). -/
def c5Bytes : List Nat :=
  [36, 71, 80, 71, 71, 65, 44, 49, 50, 51, 53, 49, 57, 44, 52, 56, 48, 55,
   46, 48, 51, 56, 44, 78, 42, 50, 55]

/-- The parse state after feeding the 27 sentence bytes (state
sempNmeaLineTermination, length 27, running XOR 0x27). -/
def c5State : ParseState :=
  (sempParseNextBytes c5Cfg (initState c5Cfg 100) c5Bytes).1

/-- Witness: C5's delivery theorem at the concrete sentence, with no trailing
bytes to ignore. -/
theorem sempNmeaValidateChecksum_delivery_witness :
    eomCount (sempNmeaValidateChecksum c5Cfg c5State 0).2.1 = 1 ∧
    (sempNmeaValidateChecksum c5Cfg c5State 0).2.1 =
      (if nmeaRxChecksum c5State (c5State.length - 0) == (c5State.crc : Int)
       then [] else [Event.badCrcQuery]) ++
      [Event.eom (extract (sempNmeaValidateChecksum c5Cfg c5State 0).1.buf
                    (c5State.length - 0 + 2)) c5State.ptype] ∧
    (sempNmeaValidateChecksum c5Cfg c5State 0).1.length =
      c5State.length - 0 + 2 ∧
    (sempNmeaValidateChecksum c5Cfg c5State 0).1.buf (c5State.length - 0) = 13 ∧
    (sempNmeaValidateChecksum c5Cfg c5State 0).1.buf (c5State.length - 0 + 1)
      = 10 ∧
    (sempNmeaValidateChecksum c5Cfg c5State 0).1.buf (c5State.length - 0 + 2)
      = 0 ∧
    (∀ i, i < c5State.length - 0 →
      (sempNmeaValidateChecksum c5Cfg c5State 0).1.buf i = c5State.buf i) ∧
    (sempNmeaValidateChecksum c5Cfg c5State 0).2.2 = true :=
  sempNmeaValidateChecksum_delivery c5Cfg c5State 0 (by decide) (by decide)

/-- Configuration with only the RTCM parser registered. -/
def c6Cfg : Config :=
  { parsers := [.rtcm], badCrc := none, invalidData := false,
    sbfInvalidData := false }

/-- The CRC-24Q of the filler header D3 00 00. -/
def rtcmFillerCrc : Nat :=
  sempRtcmComputeCrc24q (sempRtcmComputeCrc24q (sempRtcmComputeCrc24q 0 0xD3) 0) 0

/-- The RTCM filler message: preamble D3 00 00 followed by the three CRC-24Q
bytes of the header. -/
def c6Bytes : List Nat :=
  [0xD3, 0, 0, rtcmFillerCrc >>> 16, (rtcmFillerCrc >>> 8) &&& 0xFF,
   rtcmFillerCrc &&& 0xFF]

/-- C6: a zero RTCM length (after or-ing in the low length byte) transitions
directly to the CRC state with the message number cleared, the running CRC
saved and three CRC bytes expected; the final CRC byte delivers the frame
exactly when the running CRC-24Q over all frame bytes including the three
trailing CRC bytes equals zero; and feeding D3 00 00 plus the correct header
CRC from the searching state produces exactly one end-of-message callback
carrying the 6-byte frame with message number 0. -/
theorem sempRtcm_fillerMessage :
    (∀ (cfg : Config) (s : ParseState) (d : Nat),
       s.scratch.rtcmBytesRemaining ||| d = 0 →
       (sempRtcmReadLength2 cfg s d).1.state = PState.rtcmReadCrc ∧
       (sempRtcmReadLength2 cfg s d).1.scratch.rtcmMessage = 0 ∧
       (sempRtcmReadLength2 cfg s d).1.scratch.rtcmBytesRemaining = 3 ∧
       (sempRtcmReadLength2 cfg s d).1.scratch.rtcmCrc = s.crc ∧
       (sempRtcmReadLength2 cfg s d).2.1 = []) ∧
    (∀ (cfg : Config) (s : ParseState) (d : Nat),
       s.scratch.rtcmBytesRemaining = 1 → cfg.badCrc = none →
       eomCount (sempRtcmReadCrc cfg s d).2.1 = (if s.crc = 0 then 1 else 0) ∧
       (sempRtcmReadCrc cfg s d).1.state = PState.firstByte) ∧
    ((sempParseNextBytes c6Cfg (initState c6Cfg 1029) c6Bytes).2 =
       [Event.eom c6Bytes 0] ∧
     (sempParseNextBytes c6Cfg (initState c6Cfg 1029) c6Bytes).1.scratch.rtcmMessage
       = 0 ∧
     c6Bytes.length = 6) := by
  refine ⟨?_, ?_, by decide⟩
  · intro cfg s d h
    simp only [sempRtcmReadLength2]
    rw [if_pos (by simpa using h)]
    simp
  · intro cfg s d h1 h2
    simp only [sempRtcmReadCrc, h1]
    have hz : u16sub 1 1 = 0 := by decide
    rw [hz]
    rw [if_neg (by omega)]
    by_cases hc : s.crc = 0
    · simp [hc, eomCount]
    · have hc' : (s.crc == 0) = false := by simpa using hc
      simp [hc', hc, h2, badCrcConsult, eomCount]

/-- The state after D3 00: in sempRtcmReadLength2 with the high length bits
zero. -/
def c6StateA : ParseState :=
  (sempParseNextBytes c6Cfg (initState c6Cfg 1029) [0xD3, 0]).1

/-- The state after five of the six filler bytes: in sempRtcmReadCrc with one
CRC byte remaining. -/
def c6StateB : ParseState :=
  (sempParseNextBytes c6Cfg (initState c6Cfg 1029) (c6Bytes.take 5)).1

/-- Witness: C6's two universally quantified parts applied at concrete
states reached by the filler message. -/
theorem sempRtcm_fillerMessage_witness :
    ((sempRtcmReadLength2 c6Cfg c6StateA 0).1.state = PState.rtcmReadCrc ∧
     (sempRtcmReadLength2 c6Cfg c6StateA 0).1.scratch.rtcmMessage = 0 ∧
     (sempRtcmReadLength2 c6Cfg c6StateA 0).1.scratch.rtcmBytesRemaining = 3 ∧
     (sempRtcmReadLength2 c6Cfg c6StateA 0).1.scratch.rtcmCrc = c6StateA.crc ∧
     (sempRtcmReadLength2 c6Cfg c6StateA 0).2.1 = []) ∧
    (eomCount (sempRtcmReadCrc c6Cfg c6StateB 0).2.1 =
       (if c6StateB.crc = 0 then 1 else 0) ∧
     (sempRtcmReadCrc c6Cfg c6StateB 0).1.state = PState.firstByte) :=
  ⟨sempRtcm_fillerMessage.1 c6Cfg c6StateA 0 (by decide),
   sempRtcm_fillerMessage.2.1 c6Cfg c6StateB 0 (by decide) rfl⟩

/-- C7: an SBF length field that is not divisible by four makes
sempSbfLengthMSB deliver no end-of-message callback, signal the SBF
invalid-data callback (when registered) and return the state machine to
preamble scanning, so scanning resumes with the next input byte; an SBF CRC
mismatch on the final block byte (with no bad-CRC rescuer) likewise signals
invalid data and yields no end-of-message callback. -/
theorem sempSbf_badLength_badCrc :
    (∀ (cfg : Config) (s : ParseState) (d : Nat),
       (s.scratch.sbfLength ||| u16 (d <<< 8)) % 4 ≠ 0 →
       eomCount (sempSbfLengthMSB cfg s d).2.1 = 0 ∧
       (sempSbfLengthMSB cfg s d).2.1 =
         (if cfg.sbfInvalidData then [Event.sbfInvalid] else []) ∧
       (sempSbfLengthMSB cfg s d).1.state = PState.firstByte ∧
       (sempSbfLengthMSB cfg s d).2.2 = false) ∧
    (∀ (cfg : Config) (s : ParseState) (d : Nat),
       s.scratch.sbfBytesRemaining = 1 → cfg.badCrc = none →
       semp_ccitt_crc_update s.scratch.computedCRC d ≠ s.scratch.expectedCRC →
       eomCount (sempSbfReadBytes cfg s d).2.1 = 0 ∧
       (sempSbfReadBytes cfg s d).2.1 =
         (if cfg.sbfInvalidData then [Event.sbfInvalid] else []) ∧
       (sempSbfReadBytes cfg s d).1.state = PState.firstByte ∧
       (sempSbfReadBytes cfg s d).2.2 = false) := by
  constructor
  · intro cfg s d h
    simp only [sempSbfLengthMSB]
    rw [if_neg (by simpa using h)]
    refine ⟨?_, rfl, rfl, rfl⟩
    split <;> simp [eomCount]
  · intro cfg s d h1 h2 h3
    simp only [sempSbfReadBytes, h1]
    have hz : u16sub 1 1 = 0 := by decide
    rw [hz]
    rw [if_pos rfl]
    have hg : (semp_ccitt_crc_update s.scratch.computedCRC d ==
        s.scratch.expectedCRC) = false := by simpa using h3
    simp only [hg, h2, badCrcConsult]
    refine ⟨?_, by simp, by simp, by simp⟩
    simp only [Bool.or_false, Bool.false_eq_true, if_false, List.nil_append]
    split <;> simp [eomCount]

/-- Configuration with only the SBF parser and its parser-specific
invalid-data callback registered. -/
def c7Cfg : Config :=
  { parsers := [.sbf], badCrc := none, invalidData := false,
    sbfInvalidData := true }

/-- The state after `$ @ 12 34 56 78 07` : in sempSbfLengthMSB with the low
length byte 7. -/
def c7StateA : ParseState :=
  (sempParseNextBytes c7Cfg (initState c7Cfg 100)
    [0x24, 0x40, 0x12, 0x34, 0x56, 0x78, 0x07]).1

/-- The state after a 12-byte SBF header plus three body bytes: in
sempSbfReadBytes with one byte remaining and a CRC that cannot match the
expected value 0x9999. -/
def c7StateB : ParseState :=
  (sempParseNextBytes c7Cfg (initState c7Cfg 100)
    [0x24, 0x40, 0x99, 0x99, 0x01, 0x10, 0x0C, 0x00, 0xAA, 0xBB, 0xCC]).1

/-- Witness: C7's two parts applied at the concrete SBF states (length 7, and
a mismatching CRC on the final byte). -/
theorem sempSbf_badLength_badCrc_witness :
    (eomCount (sempSbfLengthMSB c7Cfg c7StateA 0).2.1 = 0 ∧
     (sempSbfLengthMSB c7Cfg c7StateA 0).2.1 =
       (if c7Cfg.sbfInvalidData then [Event.sbfInvalid] else []) ∧
     (sempSbfLengthMSB c7Cfg c7StateA 0).1.state = PState.firstByte ∧
     (sempSbfLengthMSB c7Cfg c7StateA 0).2.2 = false) ∧
    (eomCount (sempSbfReadBytes c7Cfg c7StateB 0xDD).2.1 = 0 ∧
     (sempSbfReadBytes c7Cfg c7StateB 0xDD).2.1 =
       (if c7Cfg.sbfInvalidData then [Event.sbfInvalid] else []) ∧
     (sempSbfReadBytes c7Cfg c7StateB 0xDD).1.state = PState.firstByte ∧
     (sempSbfReadBytes c7Cfg c7StateB 0xDD).2.2 = false) :=
  ⟨sempSbf_badLength_badCrc.1 c7Cfg c7StateA 0 (by decide),
   sempSbf_badLength_badCrc.2 c7Cfg c7StateB 0xDD (by decide) rfl (by decide)⟩

/-- C8: during NMEA parsing, a non-alphanumeric byte other than the comma in
the name phase, an attempt to extend the name beyond 15 bytes, and a
non-hexadecimal byte in either checksum position each remove the offending
byte, invoke the invalid-data callback (when registered) with the remaining
bytes, rescan the byte via sempFirstByte (the resulting length is 1 with the
byte at index 0), and deliver no end-of-message callback. -/
theorem sempNmea_name_and_checksum_guards :
    (∀ (cfg : Config) (s : ParseState) (d : Nat), d ≠ 44 →
       ((d &&& 0xDF) < 65 ∨ 90 < (d &&& 0xDF)) ∧ (d < 48 ∨ 57 < d) →
       eomCount (sempNmeaFindFirstComma cfg s d).2.1 = 0 ∧
       (cfg.invalidData = true →
         (sempNmeaFindFirstComma cfg s d).2.1.head? =
           some (Event.invalid (extract s.buf (s.length - 1)))) ∧
       (sempNmeaFindFirstComma cfg s d).1.length = 1 ∧
       (sempNmeaFindFirstComma cfg s d).1.buf 0 = d) ∧
    (∀ (cfg : Config) (s : ParseState) (d : Nat), d ≠ 44 →
       ¬(((d &&& 0xDF) < 65 ∨ 90 < (d &&& 0xDF)) ∧ (d < 48 ∨ 57 < d)) →
       s.scratch.sentenceNameLength = 15 →
       eomCount (sempNmeaFindFirstComma cfg s d).2.1 = 0 ∧
       (cfg.invalidData = true →
         (sempNmeaFindFirstComma cfg s d).2.1.head? =
           some (Event.invalid (extract s.buf (s.length - 1)))) ∧
       (sempNmeaFindFirstComma cfg s d).1.length = 1 ∧
       (sempNmeaFindFirstComma cfg s d).1.buf 0 = d) ∧
    (∀ (cfg : Config) (s : ParseState) (d : Nat),
       sempAsciiToNibble (s.buf (s.length - 1)) < 0 →
       eomCount (sempNmeaChecksumByte1 cfg s d).2.1 = 0 ∧
       (cfg.invalidData = true →
         (sempNmeaChecksumByte1 cfg s d).2.1.head? =
           some (Event.invalid (extract s.buf (s.length - 1)))) ∧
       (sempNmeaChecksumByte1 cfg s d).1.length = 1 ∧
       (sempNmeaChecksumByte1 cfg s d).1.buf 0 = d) ∧
    (∀ (cfg : Config) (s : ParseState) (d : Nat),
       sempAsciiToNibble (s.buf (s.length - 1)) < 0 →
       eomCount (sempNmeaChecksumByte2 cfg s d).2.1 = 0 ∧
       (cfg.invalidData = true →
         (sempNmeaChecksumByte2 cfg s d).2.1.head? =
           some (Event.invalid (extract s.buf (s.length - 1)))) ∧
       (sempNmeaChecksumByte2 cfg s d).1.length = 1 ∧
       (sempNmeaChecksumByte2 cfg s d).1.buf 0 = d) := by
  refine ⟨?_, ?_, ?_, ?_⟩
  · intro cfg s d h1 h2
    simp only [sempNmeaFindFirstComma]
    rw [if_pos (Or.inl h1), if_pos h2]
    refine ⟨?_, ?_, (sempFirstByte_keeps_byte cfg _ d).1,
      (sempFirstByte_keeps_byte cfg _ d).2⟩
    · rw [eomCount_append, sempFirstByte_no_eom]
      simp only [sempInvalidDataCallback]
      split <;> simp [eomCount]
    · intro hI
      simp [sempInvalidDataCallback, hI]
  · intro cfg s d h1 h2 h3
    simp only [sempNmeaFindFirstComma]
    rw [if_pos (Or.inl h1), if_neg h2, if_pos h3]
    refine ⟨?_, ?_, (sempFirstByte_keeps_byte cfg _ d).1,
      (sempFirstByte_keeps_byte cfg _ d).2⟩
    · rw [eomCount_append, sempFirstByte_no_eom]
      simp only [sempInvalidDataCallback]
      split <;> simp [eomCount]
    · intro hI
      simp [sempInvalidDataCallback, hI]
  · intro cfg s d h
    simp only [sempNmeaChecksumByte1]
    rw [if_neg (by omega)]
    refine ⟨?_, ?_, (sempFirstByte_keeps_byte cfg _ d).1,
      (sempFirstByte_keeps_byte cfg _ d).2⟩
    · rw [eomCount_append, sempFirstByte_no_eom]
      simp only [sempInvalidDataCallback]
      split <;> simp [eomCount]
    · intro hI
      simp [sempInvalidDataCallback, hI]
  · intro cfg s d h
    simp only [sempNmeaChecksumByte2]
    rw [if_neg (by omega)]
    refine ⟨?_, ?_, (sempFirstByte_keeps_byte cfg _ d).1,
      (sempFirstByte_keeps_byte cfg _ d).2⟩
    · rw [eomCount_append, sempFirstByte_no_eom]
      simp only [sempInvalidDataCallback]
      split <;> simp [eomCount]
    · intro hI
      simp [sempInvalidDataCallback, hI]

/-- The state after `$G`: in the NMEA name phase with one name character. -/
def c8StateName : ParseState :=
  (sempParseNextBytes c5Cfg (initState c5Cfg 100) [36, 71]).1

/-- The state after a dollar sign and fifteen name characters `A`..`O`: the
name is full. -/
def c8StateFull : ParseState :=
  (sempParseNextBytes c5Cfg (initState c5Cfg 100)
    [36, 65, 66, 67, 68, 69, 70, 71, 72, 73, 74, 75, 76, 77, 78, 79]).1

/-- The state after `$G,x*Z`: in the first checksum position with the
non-hexadecimal byte Z just stored. -/
def c8StateCk1 : ParseState :=
  let s := (sempParseNextBytes c5Cfg (initState c5Cfg 100)
    [36, 71, 44, 120, 42]).1
  { s with buf := store s.buf 5 90, length := 6 }

/-- The state after `$G,x*0Z`: in the second checksum position with the
non-hexadecimal byte Z just stored. -/
def c8StateCk2 : ParseState :=
  let s := (sempParseNextBytes c5Cfg (initState c5Cfg 100)
    [36, 71, 44, 120, 42, 48]).1
  { s with buf := store s.buf 6 90, length := 7 }

/-- Witness: C8's four guard paths applied at concrete states, with the
offending bytes `!` (name phase), `P` (sixteenth name character) and `Z`
(both checksum positions). -/
theorem sempNmea_name_and_checksum_guards_witness :
    (eomCount (sempNmeaFindFirstComma c5Cfg c8StateName 33).2.1 = 0 ∧
     (c5Cfg.invalidData = true →
       (sempNmeaFindFirstComma c5Cfg c8StateName 33).2.1.head? =
         some (Event.invalid (extract c8StateName.buf (c8StateName.length - 1)))) ∧
     (sempNmeaFindFirstComma c5Cfg c8StateName 33).1.length = 1 ∧
     (sempNmeaFindFirstComma c5Cfg c8StateName 33).1.buf 0 = 33) ∧
    (eomCount (sempNmeaFindFirstComma c5Cfg c8StateFull 80).2.1 = 0 ∧
     (c5Cfg.invalidData = true →
       (sempNmeaFindFirstComma c5Cfg c8StateFull 80).2.1.head? =
         some (Event.invalid (extract c8StateFull.buf (c8StateFull.length - 1)))) ∧
     (sempNmeaFindFirstComma c5Cfg c8StateFull 80).1.length = 1 ∧
     (sempNmeaFindFirstComma c5Cfg c8StateFull 80).1.buf 0 = 80) ∧
    (eomCount (sempNmeaChecksumByte1 c5Cfg c8StateCk1 90).2.1 = 0 ∧
     (c5Cfg.invalidData = true →
       (sempNmeaChecksumByte1 c5Cfg c8StateCk1 90).2.1.head? =
         some (Event.invalid (extract c8StateCk1.buf (c8StateCk1.length - 1)))) ∧
     (sempNmeaChecksumByte1 c5Cfg c8StateCk1 90).1.length = 1 ∧
     (sempNmeaChecksumByte1 c5Cfg c8StateCk1 90).1.buf 0 = 90) ∧
    (eomCount (sempNmeaChecksumByte2 c5Cfg c8StateCk2 90).2.1 = 0 ∧
     (c5Cfg.invalidData = true →
       (sempNmeaChecksumByte2 c5Cfg c8StateCk2 90).2.1.head? =
         some (Event.invalid (extract c8StateCk2.buf (c8StateCk2.length - 1)))) ∧
     (sempNmeaChecksumByte2 c5Cfg c8StateCk2 90).1.length = 1 ∧
     (sempNmeaChecksumByte2 c5Cfg c8StateCk2 90).1.buf 0 = 90) :=
  ⟨sempNmea_name_and_checksum_guards.1 c5Cfg c8StateName 33 (by decide) (by decide),
   sempNmea_name_and_checksum_guards.2.1 c5Cfg c8StateFull 80 (by decide)
     (by decide) (by decide),
   sempNmea_name_and_checksum_guards.2.2.1 c5Cfg c8StateCk1 90 (by decide),
   sempNmea_name_and_checksum_guards.2.2.2 c5Cfg c8StateCk2 90 (by decide)⟩

/-- Configuration with only the Unicore hash parser registered, parse area
of 11 bytes. -/
def c9Cfg : Config :=
  { parsers := [.unicoreHash], badCrc := none, invalidData := false,
    sbfInvalidData := false }

/-- The sentence `#MODEA,*6E` (0x6E is the XOR of `MODEA,`) followed by the
terminator candidate `X`. -/
def c9Bytes : List Nat :=
  [35, 77, 79, 68, 69, 65, 44, 42, 54, 69, 88]

/-- The frame the run delivers: the ten sentence bytes plus the appended
carriage return and line feed — twelve counted bytes. -/
def c9Frame : List Nat :=
  [35, 77, 79, 68, 69, 65, 44, 42, 54, 69, 13, 10]

/-- C9: the claimed invariant `length ≤ bufferLength whenever a byte is
stored` fails on the code: with an 11-byte parse area, the Unicore-hash
two-character-checksum success path (which, unlike the NMEA parser and its
own CRC path, performs no buffer-space check before appending CR LF)
delivers an end-of-message frame of 12 counted bytes, having stored the line
feed at index 11 = bufferLength. -/
theorem sempUnicoreHash_trailer_overflows_buffer :
    (initState c9Cfg 11).bufferLength = 11 ∧
    (sempParseNextBytes c9Cfg (initState c9Cfg 11) c9Bytes).2 =
      [Event.eom c9Frame 0] ∧
    c9Frame.length = 12 := by
  refine ⟨rfl, by decide, by decide⟩

/-- Configuration for the bad-CRC counterexample: NMEA only, with a bad-CRC
callback that returns true. -/
def c2Cfg : Config :=
  { parsers := [.nmea], badCrc := some (fun _ => true), invalidData := false,
    sbfInvalidData := false }

/-- The sentence `$GPGGA,1*00` (whose checksum is 0x4B, not 0x00) followed
by CR LF. -/
def c2Bytes : List Nat :=
  [36, 71, 80, 71, 71, 65, 44, 49, 42, 48, 48, 13, 10]

/-- C2 counterexample: with a registered bad-CRC callback that returns true,
the claim says the checksum-failing frame is treated as good and delivered;
the code consults the callback once and delivers no end-of-message callback
(the header defines true as "the CRC calculation fails"). -/
theorem sempBadCrc_true_drops_frame :
    (sempParseNextBytes c2Cfg (initState c2Cfg 100) c2Bytes).2 =
      [Event.badCrcQuery] ∧
    eomCount (sempParseNextBytes c2Cfg (initState c2Cfg 100) c2Bytes).2 = 0 := by
  refine ⟨by decide, by decide⟩

/-- C2 (amended): on a CRC/checksum mismatch each CRC-validating path of the
seven parsers — NMEA, Unicore-hash two-character checksum, RTCM, u-blox, SBF,
SPARTN body CRC, Unicore binary — consults the bad-CRC callback exactly once
when one is registered (and not otherwise), and the frame is delivered to the
EOM callback exactly when the callback is registered and returns false (the
header's convention: false means the alternate CRC calculation succeeded);
when it returns true or is absent there is no EOM for that frame and the
parser returns to preamble scanning (NMEA through its invalid-data path; the
Unicore-hash checksum path leaves the rescan to its line-termination callers,
and its CRC-32 path never consults the callback — see the counterexample for
the claim's inverted convention). -/
theorem sempBadCrc_convention :
    (∀ (cfg : Config) (s : ParseState) (n : Nat),
       (nmeaRxChecksum s (s.length - n) == (s.crc : Int)) = false →
       s.length - n + 2 ≤ s.bufferLength →
       (cfg.badCrc = none →
          eomCount (sempNmeaValidateChecksum cfg s n).2.1 = 0 ∧
          queryCount (sempNmeaValidateChecksum cfg s n).2.1 = 0 ∧
          (sempNmeaValidateChecksum cfg s n).1.state = PState.firstByte) ∧
       (∀ (f : ParseState → Bool) (b : Bool), cfg.badCrc = some f →
          (∀ t, f t = b) →
          eomCount (sempNmeaValidateChecksum cfg s n).2.1 = (if b then 0 else 1) ∧
          queryCount (sempNmeaValidateChecksum cfg s n).2.1 = 1 ∧
          (b = true →
            (sempNmeaValidateChecksum cfg s n).1.state = PState.firstByte))) ∧
    (∀ (cfg : Config) (s : ParseState),
       s.scratch.checksumBytes ≤ 2 →
       (uniHashRxChecksum s == (s.crc : Int)) = false →
       (cfg.badCrc = none →
          eomCount (sempUnicoreHashValidateChecksum cfg s).2 = 0 ∧
          queryCount (sempUnicoreHashValidateChecksum cfg s).2 = 0) ∧
       (∀ (f : ParseState → Bool) (b : Bool), cfg.badCrc = some f →
          (∀ t, f t = b) →
          eomCount (sempUnicoreHashValidateChecksum cfg s).2 =
            (if b then 0 else 1) ∧
          queryCount (sempUnicoreHashValidateChecksum cfg s).2 = 1)) ∧
    (∀ (cfg : Config) (s : ParseState) (d : Nat),
       s.scratch.rtcmBytesRemaining = 1 → (s.crc == 0) = false →
       (sempRtcmReadCrc cfg s d).1.state = PState.firstByte ∧
       (cfg.badCrc = none →
          eomCount (sempRtcmReadCrc cfg s d).2.1 = 0 ∧
          queryCount (sempRtcmReadCrc cfg s d).2.1 = 0) ∧
       (∀ (f : ParseState → Bool) (b : Bool), cfg.badCrc = some f →
          (∀ t, f t = b) →
          eomCount (sempRtcmReadCrc cfg s d).2.1 = (if b then 0 else 1) ∧
          queryCount (sempRtcmReadCrc cfg s d).2.1 = 1)) ∧
    (∀ (cfg : Config) (s : ParseState) (d : Nat),
       ((!(s.buf (s.length - 2) == s.scratch.ck_a)) ||
        (!(s.buf (s.length - 1) == s.scratch.ck_b))) = true →
       (sempUbloxCkB cfg s d).1.state = PState.firstByte ∧
       (cfg.badCrc = none →
          eomCount (sempUbloxCkB cfg s d).2.1 = 0 ∧
          queryCount (sempUbloxCkB cfg s d).2.1 = 0) ∧
       (∀ (f : ParseState → Bool) (b : Bool), cfg.badCrc = some f →
          (∀ t, f t = b) →
          eomCount (sempUbloxCkB cfg s d).2.1 = (if b then 0 else 1) ∧
          queryCount (sempUbloxCkB cfg s d).2.1 = 1)) ∧
    (∀ (cfg : Config) (s : ParseState) (d : Nat),
       s.scratch.sbfBytesRemaining = 1 →
       (semp_ccitt_crc_update s.scratch.computedCRC d ==
         s.scratch.expectedCRC) = false →
       (sempSbfReadBytes cfg s d).1.state = PState.firstByte ∧
       (cfg.badCrc = none →
          eomCount (sempSbfReadBytes cfg s d).2.1 = 0 ∧
          queryCount (sempSbfReadBytes cfg s d).2.1 = 0) ∧
       (∀ (f : ParseState → Bool) (b : Bool), cfg.badCrc = some f →
          (∀ t, f t = b) →
          eomCount (sempSbfReadBytes cfg s d).2.1 = (if b then 0 else 1) ∧
          queryCount (sempSbfReadBytes cfg s d).2.1 = 1)) ∧
    (∀ (cfg : Config) (s : ParseState) (d : Nat),
       u16 (s.scratch.frameCount + 1) = s.scratch.crcBytes →
       (spartnComputedCrc s.scratch.crcType s.buf
          (u16 (4 + s.scratch.TF007toTF016 + s.scratch.spartnPayloadLength +
                s.scratch.embeddedApplicationLengthBytes)) ==
        spartnExpectedCrc s.scratch.crcType s.buf
          (u16 (4 + s.scratch.TF007toTF016 + s.scratch.spartnPayloadLength +
                s.scratch.embeddedApplicationLengthBytes))) = false →
       (sempSpartnReadTF018 cfg s d).1.state = PState.firstByte ∧
       (cfg.badCrc = none →
          eomCount (sempSpartnReadTF018 cfg s d).2.1 = 0 ∧
          queryCount (sempSpartnReadTF018 cfg s d).2.1 = 0) ∧
       (∀ (f : ParseState → Bool) (b : Bool), cfg.badCrc = some f →
          (∀ t, f t = b) →
          eomCount (sempSpartnReadTF018 cfg s d).2.1 = (if b then 0 else 1) ∧
          queryCount (sempSpartnReadTF018 cfg s d).2.1 = 1)) ∧
    (∀ (cfg : Config) (s : ParseState) (d : Nat),
       s.scratch.uniBinBytesRemaining = 1 → (s.crc == 0) = false →
       (sempUnicoreBinaryReadCrc cfg s d).1.state = PState.firstByte ∧
       (cfg.badCrc = none →
          eomCount (sempUnicoreBinaryReadCrc cfg s d).2.1 = 0 ∧
          queryCount (sempUnicoreBinaryReadCrc cfg s d).2.1 = 0) ∧
       (∀ (f : ParseState → Bool) (b : Bool), cfg.badCrc = some f →
          (∀ t, f t = b) →
          eomCount (sempUnicoreBinaryReadCrc cfg s d).2.1 = (if b then 0 else 1) ∧
          queryCount (sempUnicoreBinaryReadCrc cfg s d).2.1 = 1)) := by
  refine ⟨?_, ?_, ?_, ?_, ?_, ?_, ?_⟩
  · intro cfg s n hm hroom
    constructor
    · intro hb
      simp_all [sempNmeaValidateChecksum, badCrcConsult, sempInvalidDataCallback,
        eomCount, queryCount, apply_ite, List.filter_append]
    · intro f b hb hc
      cases b with
      | true =>
          simp_all [sempNmeaValidateChecksum, badCrcConsult,
            sempInvalidDataCallback, eomCount, queryCount, apply_ite,
            List.filter_append]
      | false =>
          simp_all [sempNmeaValidateChecksum, badCrcConsult,
            sempInvalidDataCallback, eomCount, queryCount, apply_ite,
            List.filter_append]
  · intro cfg s hcb hm
    rw [sempUnicoreHashValidateChecksum, if_neg (by omega)]
    constructor
    · intro hb
      simp_all [badCrcConsult, eomCount, queryCount, apply_ite,
        List.filter_append]
    · intro f b hb hc
      cases b <;>
        simp_all [badCrcConsult, eomCount, queryCount, apply_ite,
          List.filter_append]
  · intro cfg s d h1 hm
    simp only [sempRtcmReadCrc, h1]
    have hz : u16sub 1 1 = 0 := by decide
    rw [hz, if_neg (by omega)]
    refine ⟨by simp, ?_, ?_⟩
    · intro hb
      simp_all [badCrcConsult, eomCount, queryCount, apply_ite,
        List.filter_append]
    · intro f b hb hc
      cases b <;>
        simp_all [badCrcConsult, eomCount, queryCount, apply_ite,
          List.filter_append]
  · intro cfg s d hm
    simp only [sempUbloxCkB, hm]
    refine ⟨by simp, ?_, ?_⟩
    · intro hb
      simp_all [badCrcConsult, eomCount, queryCount, apply_ite,
        List.filter_append]
    · intro f b hb hc
      cases b <;>
        simp_all [badCrcConsult, eomCount, queryCount, apply_ite,
          List.filter_append]
  · intro cfg s d h1 hm
    simp only [sempSbfReadBytes, h1]
    have hz : u16sub 1 1 = 0 := by decide
    rw [hz, if_pos rfl]
    refine ⟨by simp, ?_, ?_⟩
    · intro hb
      simp_all [badCrcConsult, eomCount, queryCount, apply_ite,
        List.filter_append]
    · intro f b hb hc
      cases b <;>
        simp_all [badCrcConsult, eomCount, queryCount, apply_ite,
          List.filter_append]
  · intro cfg s d h1 hm
    simp only [sempSpartnReadTF018]
    rw [if_pos (by simpa using h1)]
    refine ⟨by simp, ?_, ?_⟩
    · intro hb
      simp_all [badCrcConsult, eomCount, queryCount, apply_ite,
        List.filter_append]
    · intro f b hb hc
      cases b <;>
        simp_all [badCrcConsult, eomCount, queryCount, apply_ite,
          List.filter_append]
  · intro cfg s d h1 hm
    simp only [sempUnicoreBinaryReadCrc, h1]
    have hz : u16sub 1 1 = 0 := by decide
    rw [hz, if_neg (by omega)]
    refine ⟨by simp, ?_, ?_⟩
    · intro hb
      simp_all [badCrcConsult, eomCount, queryCount, apply_ite,
        List.filter_append]
    · intro f b hb hc
      cases b <;>
        simp_all [badCrcConsult, eomCount, queryCount, apply_ite,
          List.filter_append]

/-- Configuration with an always-false bad-CRC callback: per the header, the
alternate CRC calculation succeeded, so frames are rescued. -/
def c2wCfg : Config :=
  { parsers := [.nmea], badCrc := some (fun _ => false), invalidData := false,
    sbfInvalidData := false }

/-- The state after `$GPGGA,1*00`: in sempNmeaLineTermination with running
XOR 0x4B and received checksum 0x00. -/
def c2wState : ParseState :=
  (sempParseNextBytes c2wCfg (initState c2wCfg 100)
    [36, 71, 80, 71, 71, 65, 44, 49, 42, 48, 48]).1

/-- Witness: C2's amended theorem applied at a mismatching NMEA sentence with
an always-false (rescuing) callback, and at a mismatching RTCM CRC with no
callback registered. -/
theorem sempBadCrc_convention_witness :
    (eomCount (sempNmeaValidateChecksum c2wCfg c2wState 0).2.1 = 1 ∧
     queryCount (sempNmeaValidateChecksum c2wCfg c2wState 0).2.1 = 1 ∧
     (false = true →
       (sempNmeaValidateChecksum c2wCfg c2wState 0).1.state =
         PState.firstByte)) ∧
    (eomCount (sempRtcmReadCrc c6Cfg c6StateB 0).2.1 = 0 ∧
     queryCount (sempRtcmReadCrc c6Cfg c6StateB 0).2.1 = 0) :=
  ⟨(sempBadCrc_convention.1 c2wCfg c2wState 0 (by decide) (by decide)).2
     (fun _ => false) false rfl (fun _ => rfl),
   (sempBadCrc_convention.2.2.1 c6Cfg c6StateB 0 (by decide) (by decide)).2.1
     rfl⟩

end Semp
